import Mathlib

/-!
Verification development for the ImguUnit pipeline controller of a camera
HAL (stream-to-node mapping, request admission, completion reordering and
flush handling).  Every definition below is a shallow embedding of the
corresponding C++ function of `ImguUnit.cpp`; machine floats of the source
are modelled with exact rationals, pointers to stream objects with a
numeric identity field, and the two `std::map` tables with association
lists.
-/

/-- A caller-visible stream (`camera3_stream_t`).  `sid` models the pointer
identity of the stream object; `width` and `height` are its dimensions. -/
structure Camera3Stream where
  sid : Nat
  width : Nat
  height : Nat
  deriving Repr, DecidableEq

/-- The logical hardware node tags (`NodeTypes`). -/
inductive NodeTypes where
  | video
  | vfPreview
  | pvPreview
  | still
  | raw
  | unknownN
  deriving Repr, DecidableEq

/-- `status_t` values observable through the mapper and the handlers. -/
inductive StatusT where
  | ok
  | badValue
  | unknownError
  deriving Repr, DecidableEq

/-- `streamSizeGT/EQ/GE` macros: a stream's pixel count `width*height`. -/
def streamSize (s : Camera3Stream) : Nat := s.width * s.height

/-- `streamSizeRatio` macro: aspect ratio `width / height`, modelled as the
exact rational (the source computes it in floating point). -/
def streamSizeRatioQ (s : Camera3Stream) : ℚ := mkRat s.width s.height

/-- `fabs` on the rational model. -/
def qabs (a : ℚ) : ℚ := if a ≤ 0 then -a else a

/-- The source's ratio-tie tolerance `0.000001f`. -/
def tieEps : ℚ := mkRat 1 1000000

/-- Indexing `availableStreams[i]` (out-of-range reads never happen on the
paths the theorems take; a dummy stream is the default). -/
def getStr (l : List Camera3Stream) (i : Nat) : Camera3Stream :=
  l.getD i ⟨0, 0, 0⟩

/-- The two maps populated by `mapStreamWithDeviceNode`:
`mStreamNodeMapping` (node tag → stream) and `mStreamListenerMapping`
(stream → node tag it listens to). -/
structure MapResult where
  nodeMapping : List (NodeTypes × Camera3Stream)
  listenerMapping : List (Camera3Stream × NodeTypes)
  deriving Repr, DecidableEq

/-- Lookup in the node-tag → stream map. -/
def lookupNode (m : List (NodeTypes × Camera3Stream)) (k : NodeTypes) :
    Option Camera3Stream :=
  (m.find? (fun p => p.1 == k)).map (fun p => p.2)

/-- Lookup in the stream → node-tag listener map. -/
def lookupListener (m : List (Camera3Stream × NodeTypes)) (k : Camera3Stream) :
    Option NodeTypes :=
  (m.find? (fun p => p.1 == k)).map (fun p => p.2)

/-- The `videoIdx` selection loop: first index of maximal `streamSize`
(strict `streamSizeGT` comparison against the current candidate). -/
def pickVideoIdx (avail : List Camera3Stream) : Nat :=
  (List.range avail.length).foldl
    (fun v i => if streamSize (getStr avail i) > streamSize (getStr avail v) then i else v) 0

/-- The `previewIdx` selection loop: the first non-video index, thereafter
replaced by any strictly larger stream whose size does not equal the video
stream's size. -/
def pickPreviewIdx (avail : List Camera3Stream) (videoIdx : Nat) : Option Nat :=
  (List.range avail.length).foldl
    (fun p i =>
      if i = videoIdx then p
      else
        match p with
        | none => some i
        | some pv =>
          if streamSize (getStr avail i) = streamSize (getStr avail videoIdx) then some pv
          else if streamSize (getStr avail i) > streamSize (getStr avail pv) then some i
          else some pv)
    none

/-- The listener branch body of `mapStreamWithDeviceNode`, translated from
the source: ratio comparison with the 1e-6 tie window, the equal-size tie
breaks, and the `streamSizeGE` guards of the two non-tie branches. -/
def listenerNodeOfSource (video preview listener : Camera3Stream) : NodeTypes :=
  let lpRatioDiff := qabs (streamSizeRatioQ listener - streamSizeRatioQ preview)
  let lvRatioDiff := qabs (streamSizeRatioQ listener - streamSizeRatioQ video)
  if qabs (lpRatioDiff - lvRatioDiff) ≤ tieEps then
    if streamSize listener = streamSize video then NodeTypes.video
    else if streamSize listener = streamSize preview then NodeTypes.vfPreview
    else if streamSize preview > streamSize video then NodeTypes.vfPreview
    else NodeTypes.video
  else if lpRatioDiff < lvRatioDiff then
    if streamSize preview ≥ streamSize listener then NodeTypes.vfPreview
    else NodeTypes.video
  else
    if streamSize video ≥ streamSize listener then NodeTypes.video
    else NodeTypes.vfPreview

/-- The listener loop: every index other than `videoIdx`/`previewIdx`
becomes a listener with the node chosen by the source branch. -/
def listenerAssign (avail : List Camera3Stream) (videoIdx previewIdx : Nat) :
    List (Nat × NodeTypes) :=
  (List.range avail.length).filterMap (fun i =>
    if i = videoIdx ∨ i = previewIdx then none
    else some (i, listenerNodeOfSource (getStr avail videoIdx) (getStr avail previewIdx)
                    (getStr avail i)))

/-- `ImguUnit::mapStreamWithDeviceNode`.  `prior` is the content of the two
maps before the call (they are member state); note the source checks
`blobNum > 1` *before* clearing the maps. -/
def mapStreamWithDeviceNode (blobs yuvs : List Camera3Stream) (prior : MapResult) :
    StatusT × MapResult :=
  if blobs.length > 1 then (StatusT.badValue, prior)
  else
    let avail := blobs ++ yuvs
    let streamNum := avail.length
    if streamNum = 1 then
      (StatusT.ok, ⟨[(NodeTypes.video, getStr avail 0)], []⟩)
    else if streamNum = 2 then
      let videoIdx := if streamSize (getStr avail 0) ≥ streamSize (getStr avail 1) then 0 else 1
      let previewIdx := if videoIdx = 1 then 0 else 1
      (StatusT.ok,
       ⟨[(NodeTypes.vfPreview, getStr avail previewIdx),
         (NodeTypes.pvPreview, getStr avail previewIdx),
         (NodeTypes.video, getStr avail videoIdx)], []⟩)
    else if 2 ≤ yuvs.length ∧ blobs.length = 1 then
      let videoIdx := pickVideoIdx avail
      let previewIdx := (pickPreviewIdx avail videoIdx).getD 1
      let ls := listenerAssign avail videoIdx previewIdx
      (StatusT.ok,
       ⟨[(NodeTypes.vfPreview, getStr avail previewIdx),
         (NodeTypes.pvPreview, getStr avail previewIdx),
         (NodeTypes.video, getStr avail videoIdx)],
        ls.map (fun p => (getStr avail p.1, p.2))⟩)
    else
      (StatusT.unknownError, ⟨[], []⟩)

/-- Listener rule as the claim words it (no size guard in the non-tie
branches): the node with the strictly closer aspect ratio always wins. -/
def listenerNodeClaimed (video preview listener : Camera3Stream) : NodeTypes :=
  let lp := qabs (streamSizeRatioQ listener - streamSizeRatioQ preview)
  let lv := qabs (streamSizeRatioQ listener - streamSizeRatioQ video)
  if qabs (lp - lv) ≤ tieEps then
    if streamSize listener = streamSize video then NodeTypes.video
    else if streamSize listener = streamSize preview then NodeTypes.vfPreview
    else if streamSize preview > streamSize video then NodeTypes.vfPreview
    else NodeTypes.video
  else if lp < lv then NodeTypes.vfPreview
  else NodeTypes.video

/-- Listener rule as amended: the closer-ratio node wins only when its
stream's size is at least the listener's; otherwise the other node is
chosen.  Ties within 1e-6 keep the claimed tie-break rules. -/
def listenerNodeAmended (video preview listener : Camera3Stream) : NodeTypes :=
  let lp := qabs (streamSizeRatioQ listener - streamSizeRatioQ preview)
  let lv := qabs (streamSizeRatioQ listener - streamSizeRatioQ video)
  if qabs (lp - lv) ≤ tieEps then
    if streamSize listener = streamSize video then NodeTypes.video
    else if streamSize listener = streamSize preview then NodeTypes.vfPreview
    else if streamSize preview > streamSize video then NodeTypes.vfPreview
    else NodeTypes.video
  else if lp < lv then
    if streamSize preview ≥ streamSize listener then NodeTypes.vfPreview
    else NodeTypes.video
  else
    if streamSize video ≥ streamSize listener then NodeTypes.video
    else NodeTypes.vfPreview

/-! ## Request admission (`processNextRequest`, `kickstart`,
`handleMessageCompleteReq`) -/

/-- A capture request (`Camera3Request`): caller-assigned id, number of
input buffers, and the sticky error flag. -/
structure Camera3Request where
  id : Nat
  inputBufs : Nat
  err : Bool
  deriving Repr, DecidableEq

/-- A processing stage (`FrameWorker`).  `wid` is its identity, `hasNode`
whether `getNode()` is non-null, `node` the hardware endpoint handle, and
`needsPolling` the `needPolling()` answer. -/
structure Worker where
  wid : Nat
  hasNode : Bool
  node : Nat
  needsPolling : Bool
  deriving Repr, DecidableEq

/-- One `PipeConfiguration`: device Workers, pollable Workers and the
waitable-node list. -/
structure PipeConfiguration where
  deviceWorkers : List Worker
  pollableWorkers : List Worker
  nodes : List Nat
  deriving Repr, DecidableEq

/-- A poll-completion message (`DeviceMessage.pollEvent`): correlated
request id, number of polled devices, and whether the active-device array
is null (the hardware-error marker checked by `startProcessing`). -/
structure PollEvent where
  requestId : Nat
  polledDevices : Nat
  activeNull : Bool
  deriving Repr, DecidableEq

/-- Result of one pass of `handleMessageCompleteReq`/`processNextRequest`.
`ok` is the accumulated `status_t`, `prepared` the Workers that received
`prepareRun` in order, `bound` the `mRequestToWorkMap` entry built for the
request, `nodes` the waitable-node set accumulated, `dummyMsg` the
synthetic poll notification pushed for a node-less Worker (if any), and
`firstRequestAfter` the `mFirstRequest` flag after the pass. -/
structure AdmResult where
  ok : Bool
  prepared : List Nat
  bound : List Nat
  nodes : List Nat
  dummyMsg : Option PollEvent
  firstRequestAfter : Bool
  deriving Repr, DecidableEq

/-- The `prepareRun` loop of `processNextRequest`: a Worker with no node,
when the request has input buffers, is bound, prepared, and a synthetic
poll notification with zero polled devices is emitted; the loop (and the
whole admission) returns at that point.  Otherwise every Worker is
prepared and the status accumulated. -/
def prepLoop (prepRes : Nat → Bool) (req : Camera3Request) :
    List Worker → Bool → List Nat → Bool × List Nat × List Nat × Option PollEvent
  | [], ok, acc => (ok, acc, [], none)
  | w :: rest, ok, acc =>
    if !w.hasNode && decide (0 < req.inputBufs) then
      (ok && prepRes w.wid, acc ++ [w.wid], [w.wid], some ⟨req.id, 0, true⟩)
    else prepLoop prepRes req rest (ok && prepRes w.wid) (acc ++ [w.wid])

/-- `ImguUnit::kickstart`: start every device Worker, stopping at the
first failure; `mFirstRequest` is cleared only when all starts succeed. -/
def kickstart (startRes : Nat → Bool) (ws : List Worker) : Bool :=
  ws.all (fun w => startRes w.wid)

/-- `ImguUnit::processNextRequest` for one popped pending request.
`settingsRes` are the per-listening-task results of `settings`,
`startRes`/`prepRes` the per-Worker results of `startWorker`/`prepareRun`.
Note that on the first request the accumulated settings status is
overwritten by `status = kickstart()`. -/
def processNextRequest (settingsRes : List Bool) (startRes prepRes : Nat → Bool)
    (req : Camera3Request) (cfg : PipeConfiguration) (firstRequest : Bool) : AdmResult :=
  let sOk := settingsRes.all (fun b => b)
  if firstRequest && !kickstart startRes cfg.deviceWorkers then
    ⟨false, [], [], [], none, true⟩
  else
    let ok0 := if firstRequest then true else sOk
    match prepLoop prepRes req cfg.deviceWorkers ok0 [] with
    | (ok1, prepped, dBound, some d) =>
      ⟨ok1, prepped, dBound, [], some d, false⟩
    | (ok1, prepped, _, none) =>
      let nodes := (cfg.pollableWorkers.filter
        (fun w => w.needsPolling && decide (req.inputBufs = 0))).map (fun w => w.node)
      let pBound := (cfg.pollableWorkers.filter (fun w => w.needsPolling)).map (fun w => w.wid)
      ⟨ok1, prepped, pBound, nodes, none, false⟩

/-- Outcome of `handleMessageCompleteReq`: the admission pass, whether
`request->setError()` was called, and whether a `pollRequest` was issued
(only when the accumulated node set is non-empty). -/
structure HandlerRes where
  admission : AdmResult
  errorSet : Bool
  pollIssued : Bool
  deriving Repr, DecidableEq

/-- `ImguUnit::handleMessageCompleteReq` for one request. -/
def handleMessageCompleteReq (settingsRes : List Bool) (startRes prepRes : Nat → Bool)
    (req : Camera3Request) (cfg : PipeConfiguration) (firstRequest : Bool) : HandlerRes :=
  let r := processNextRequest settingsRes startRes prepRes req cfg firstRequest
  ⟨r, !r.ok, !r.nodes.isEmpty⟩

/-! ## Pipe building (`createProcessingTasks`, Worker-assembly part) -/

/-- The per-node Worker construction loop of `createProcessingTasks`:
still/video nodes push an Output-Worker onto the video `PipeConfiguration`
(device list, pollable list and node list); vf/pv preview nodes are set
aside; raw is skipped; an unknown node name aborts with an error. -/
def buildLoop : List (NodeTypes × Nat) → PipeConfiguration → Option Worker → Option Worker →
    Option (PipeConfiguration × Option Worker × Option Worker)
  | [], cfg, vf, pv => some (cfg, vf, pv)
  | (t, h) :: rest, cfg, vf, pv =>
    match t with
    | NodeTypes.still =>
      buildLoop rest ⟨cfg.deviceWorkers ++ [⟨h, true, h, true⟩],
        cfg.pollableWorkers ++ [⟨h, true, h, true⟩], cfg.nodes ++ [h]⟩ vf pv
    | NodeTypes.video =>
      buildLoop rest ⟨cfg.deviceWorkers ++ [⟨h, true, h, true⟩],
        cfg.pollableWorkers ++ [⟨h, true, h, true⟩], cfg.nodes ++ [h]⟩ vf pv
    | NodeTypes.vfPreview => buildLoop rest cfg (some ⟨h, true, h, true⟩) pv
    | NodeTypes.pvPreview => buildLoop rest cfg vf (some ⟨h, true, h, true⟩)
    | NodeTypes.raw => buildLoop rest cfg vf pv
    | NodeTypes.unknownN => none

/-- Worker-assembly of `createProcessingTasks` after the node loop: a pv
Worker clones the video configuration into the still configuration and is
prepended there; a vf Worker is prepended to the video configuration
(device, pollable and node lists); an Input-Worker (node-less, identified
by `inWid`) is prepended to the video configuration's device-Worker list
only.  Returns `(videoConfig, stillConfig)`. -/
def buildConfigs (ns : List (NodeTypes × Nat)) (hasInput : Bool) (inWid : Nat) :
    Option (PipeConfiguration × PipeConfiguration) :=
  match buildLoop ns ⟨[], [], []⟩ none none with
  | none => none
  | some (cfg0, vf, pv) =>
    let stillCfg :=
      match pv with
      | some pvW => PipeConfiguration.mk (pvW :: cfg0.deviceWorkers)
          (pvW :: cfg0.pollableWorkers) (pvW.node :: cfg0.nodes)
      | none => ⟨[], [], []⟩
    let videoCfg :=
      match vf with
      | some vfW => PipeConfiguration.mk (vfW :: cfg0.deviceWorkers)
          (vfW :: cfg0.pollableWorkers) (vfW.node :: cfg0.nodes)
      | none => cfg0
    let videoCfg2 :=
      if hasInput then
        PipeConfiguration.mk ((⟨inWid, false, 0, false⟩ : Worker) :: videoCfg.deviceWorkers)
          videoCfg.pollableWorkers videoCfg.nodes
      else videoCfg
    some (videoCfg2, stillCfg)

/-! ## Completion reordering (`startProcessing`) -/

/-- The three per-request Worker phases run by a completion batch. -/
inductive WPhase where
  | asyncPollDone
  | runW
  | postRunW
  deriving Repr, DecidableEq

/-- Observable actions of the completion path, in order of occurrence. -/
inductive Ev where
  | wcall (reqId wid : Nat) (ph : WPhase)
  | devErrCall (wid : Nat)
  | errCbCall
  | pollerFlushCall
  | completion (reqId : Nat) (err : Bool)
  deriving Repr, DecidableEq

/-- `mRequestToWorkMap` as an association list keyed by request id. -/
def lookupWork (m : List (Nat × List Nat)) (rid : Nat) : List Nat :=
  match m.find? (fun p => p.1 == rid) with
  | some p => p.2
  | none => []

/-- `mRequestToWorkMap.erase(reqId)`. -/
def eraseWork (m : List (Nat × List Nat)) (rid : Nat) : List (Nat × List Nat) :=
  m.filter (fun p => !(p.1 == rid))

/-- Controller state read and written by `startProcessing`:
`mMessagesUnderwork` (in-flight requests, oldest first),
`mDelayProcessRequest` (the Delay Queue) and `mRequestToWorkMap`. -/
structure ImguSt where
  underwork : List Camera3Request
  delayQ : List Nat
  reqToWork : List (Nat × List Nat)
  deriving Repr, DecidableEq

/-- The Delay-Queue scan of `startProcessing`: length of the maximal
contiguous run `startId, startId+1, …` at the front of the queue. -/
def contiguousCount : List Nat → Nat → Nat
  | [], _ => 0
  | x :: rest, start => if x = start then contiguousCount rest (start + 1) + 1 else 0

/-- The events of one Worker phase for one request. -/
def phaseEvs (reqId : Nat) (ws : List Nat) (ph : WPhase) : List Ev :=
  ws.map (fun w => Ev.wcall reqId w ph)

/-- The accumulated status of one Worker phase. -/
def phaseOk (wres : Nat → Nat → WPhase → Bool) (reqId : Nat) (ws : List Nat) (ph : WPhase) :
    Bool :=
  ws.all (fun w => wres reqId w ph)

/-- Result of the batch-drain loop of `startProcessing`. -/
structure DrainRes where
  events : List Ev
  underwork : List Camera3Request
  reqToWork : List (Nat × List Nat)
  ok : Bool
  deriving Repr, DecidableEq

/-- The `processReqNum` drain loop of `startProcessing`: for each drained
request, `asyncPollDone` on every bound Worker, then `run` on every bound
Worker, then `postRun` on every bound Worker; the binding entry is erased;
the sticky error flag is the accumulated status or the device-error flag;
the completion event fires last, and the request leaves the in-flight
queue.  `wres` gives each Worker call's result. -/
def drainLoop (wres : Nat → Nat → WPhase → Bool) (devErr : Bool) :
    Nat → List Camera3Request → List (Nat × List Nat) → Bool → DrainRes
  | 0, uw, m, ok => ⟨[], uw, m, ok⟩
  | _ + 1, [], m, ok => ⟨[], [], m, ok⟩
  | n + 1, req :: rest, m, ok =>
    let ws := lookupWork m req.id
    let ok1 := ok && phaseOk wres req.id ws WPhase.asyncPollDone &&
      phaseOk wres req.id ws WPhase.runW && phaseOk wres req.id ws WPhase.postRunW
    let errFlag := !ok1 || devErr || req.err
    let evs := phaseEvs req.id ws WPhase.asyncPollDone ++ phaseEvs req.id ws WPhase.runW ++
      phaseEvs req.id ws WPhase.postRunW ++ [Ev.completion req.id errFlag]
    let r := drainLoop wres devErr n rest (eraseWork m req.id) ok1
    ⟨evs ++ r.events, r.underwork, r.reqToWork, r.ok⟩

/-- Result of `startProcessing`: the emitted action trace, the new
controller state and the returned status. -/
structure SPRes where
  events : List Ev
  st : ImguSt
  ok : Bool
  deriving Repr, DecidableEq

/-- `ImguUnit::startProcessing`.  `cfgWorkers` are the ids of the current
`PipeConfiguration`'s device Workers (told `deviceError` on a hardware
error), `hasErrCb` whether an error callback is registered. -/
def startProcessing (cfgWorkers : List Nat) (hasErrCb : Bool)
    (wres : Nat → Nat → WPhase → Bool) (pe : PollEvent) (s : ImguSt) : SPRes :=
  match s.underwork with
  | [] => ⟨[], s, true⟩
  | front :: _ =>
    if front.id < pe.requestId then
      ⟨[], { s with delayQ := s.delayQ ++ [pe.requestId] }, true⟩
    else if pe.requestId < front.id then
      ⟨[], s, false⟩
    else
      let c := contiguousCount s.delayQ (pe.requestId + 1)
      let devErr := decide (0 < pe.polledDevices) && pe.activeNull
      let devErrCase := devErr && decide (front.inputBufs = 0)
      let preEvs :=
        if devErrCase then
          cfgWorkers.map Ev.devErrCall ++ (if hasErrCb then [Ev.errCbCall] else []) ++
            [Ev.pollerFlushCall]
        else []
      let n := if devErrCase then s.underwork.length else c + 1
      let r := drainLoop wres devErr n s.underwork s.reqToWork true
      ⟨preEvs ++ r.events, ⟨r.underwork, s.delayQ.drop c, r.reqToWork⟩, r.ok⟩

/-- Fold a sequence of poll notifications through `startProcessing`,
concatenating the emitted traces. -/
def runNotifications (cfgWorkers : List Nat) (hasErrCb : Bool)
    (wres : Nat → Nat → WPhase → Bool) : List PollEvent → ImguSt → List Ev × ImguSt
  | [], s => ([], s)
  | pe :: rest, s =>
    let r := startProcessing cfgWorkers hasErrCb wres pe s
    let t := runNotifications cfgWorkers hasErrCb wres rest r.st
    (r.events ++ t.1, t.2)

/-- The request ids of the completion events of a trace, in order. -/
def completionIds (evs : List Ev) : List Nat :=
  evs.filterMap (fun e =>
    match e with
    | Ev.completion r _ => some r
    | _ => none)

/-! ## Flush handling (`flush`, `handleMessageFlush`, `notifyPollEvent`,
`configStreams` flag reset) -/

/-- The Worker/Node bookkeeping cleared by `ImguUnit::clearWorkers`: both
pipe configurations and the capture-event listener Workers. -/
structure PipeBook where
  videoCfg : PipeConfiguration
  stillCfg : PipeConfiguration
  listenerDeviceWorkers : List Nat
  deriving Repr, DecidableEq

/-- `ImguUnit::clearWorkers`: every list of every `PipeConfiguration` and
the listener-Worker list become empty. -/
def clearWorkers : PipeBook := ⟨⟨[], [], []⟩, ⟨[], [], []⟩, []⟩

/-- The stop loop of `handleMessageFlush`: `stopWorker` on every Worker,
aborting at the first failure. -/
def stopAll (stopRes : Nat → Bool) : List Worker → Bool
  | [] => true
  | w :: rest => if stopRes w.wid then stopAll stopRes rest else false

/-- Result of `handleMessageFlush`: returned status, the bookkeeping after
the handler, and whether the Poller's outstanding waits were flushed. -/
structure FlushRes where
  ok : Bool
  book : PipeBook
  pollerFlushed : Bool
  deriving Repr, DecidableEq

/-- `ImguUnit::handleMessageFlush`: flush the Poller, stop every Worker of
the current `PipeConfiguration` (a stop failure returns that status
immediately, before `clearWorkers`), then clear the bookkeeping. -/
def handleMessageFlush (stopRes : Nat → Bool) (curWorkers : Option (List Worker))
    (book : PipeBook) : FlushRes :=
  match curWorkers with
  | none => ⟨true, clearWorkers, true⟩
  | some ws =>
    if stopAll stopRes ws then ⟨true, clearWorkers, true⟩
    else ⟨false, book, true⟩

/-- Poll notification kinds delivered to `notifyPollEvent`. -/
inductive PollKind where
  | event
  | errorK
  | unknownK
  deriving Repr, DecidableEq

/-- A `PollEventMessage` from the Poller thread. -/
structure PollEventMessage where
  kind : PollKind
  reqId : Nat
  activeDevices : Option (List Nat)
  polledDevices : List Nat
  deriving Repr, DecidableEq

/-- `notifyPollEvent` return values. -/
inductive NotifyStatus where
  | okN
  | badValueN
  | eagainN
  deriving Repr, DecidableEq

/-- `ImguUnit::notifyPollEvent`: the returned status and the poll message
enqueued to the control loop, if any.  On the successful-event path the
`mFlushing` flag drops the message; the error path enqueues regardless. -/
def notifyPollEvent (flushing : Bool) (pm : PollEventMessage) :
    NotifyStatus × Option PollEvent :=
  match pm.activeDevices with
  | none => (NotifyStatus.badValueN, none)
  | some active =>
    match pm.kind with
    | PollKind.event =>
      if active.length = 0 then (NotifyStatus.okN, none)
      else if pm.polledDevices.length = 0 then (NotifyStatus.okN, none)
      else if active.length ≠ pm.polledDevices.length then (NotifyStatus.eagainN, none)
      else if flushing then (NotifyStatus.okN, none)
      else (NotifyStatus.okN, some ⟨pm.reqId, pm.polledDevices.length, false⟩)
    | PollKind.errorK =>
      (NotifyStatus.okN, some ⟨pm.reqId, pm.polledDevices.length, true⟩)
    | PollKind.unknownK => (NotifyStatus.okN, none)

/-- The flag-and-queue state shared between `flush`, the control loop and
the Poller callback. -/
structure Ctrl where
  flushing : Bool
  queue : List PollEvent
  deriving Repr, DecidableEq

/-- `ImguUnit::flush`: sets `mFlushing` under the mutex and removes every
not-yet-delivered `MESSAGE_ID_POLL` message from the queue. -/
def flushCall (_c : Ctrl) : Ctrl := ⟨true, []⟩

/-- The `mFlushing = false` reset performed by `ImguUnit::configStreams`
before rebuilding the pipe. -/
def configStreamsReset (c : Ctrl) : Ctrl := ⟨false, c.queue⟩

/-- `notifyPollEvent` acting on the shared state: the enqueued message, if
any, is appended to the control queue; the flag is never written. -/
def notifyCall (c : Ctrl) (pm : PollEventMessage) : Ctrl :=
  match notifyPollEvent c.flushing pm with
  | (_, some q) => ⟨c.flushing, c.queue ++ [q]⟩
  | (_, none) => c

/-- The operations that may touch the shared flag between a `flush` and
the next `configStreams`. -/
inductive COp where
  | opFlush
  | opHandleFlush
  | opNotify (pm : PollEventMessage)

/-- Apply one operation to the shared state (`handleMessageFlush` never
writes the flag or the queue of poll messages). -/
def applyCOp (c : Ctrl) : COp → Ctrl
  | COp.opFlush => flushCall c
  | COp.opHandleFlush => c
  | COp.opNotify pm => notifyCall c pm

/-- Apply a sequence of operations left to right. -/
def applyCOps (c : Ctrl) : List COp → Ctrl
  | [] => c
  | op :: rest => applyCOps (applyCOp c op) rest

/-! ## Trace lemmas for the completion path -/

theorem completionIds_append (a b : List Ev) :
    completionIds (a ++ b) = completionIds a ++ completionIds b := by
  simp [completionIds]

theorem completionIds_phaseEvs (r : Nat) (ws : List Nat) (ph : WPhase) :
    completionIds (phaseEvs r ws ph) = [] := by
  simp [completionIds, phaseEvs, List.filterMap_eq_nil_iff]

theorem completionIds_devErrEvs (l : List Nat) :
    completionIds (l.map Ev.devErrCall) = [] := by
  simp [completionIds, List.filterMap_eq_nil_iff]

theorem drainLoop_underwork (wres : Nat → Nat → WPhase → Bool) (devErr : Bool) (n : Nat)
    (uw : List Camera3Request) (m : List (Nat × List Nat)) (ok : Bool) :
    (drainLoop wres devErr n uw m ok).underwork = uw.drop n := by
  induction n generalizing uw m ok with
  | zero => simp [drainLoop]
  | succ k ih =>
    cases uw with
    | nil => simp [drainLoop]
    | cons r rest => simp [drainLoop, ih]

theorem completionIds_errCbOpt (b : Bool) :
    completionIds (if b then [Ev.errCbCall] else []) = [] := by
  cases b <;> rfl

theorem completionIds_pollerFlush : completionIds [Ev.pollerFlushCall] = [] := rfl

theorem completionIds_pollerFlush_cons (t : List Ev) :
    completionIds (Ev.pollerFlushCall :: t) = completionIds t := by
  simp [completionIds]

theorem completionIds_errCb_cons (t : List Ev) :
    completionIds (Ev.errCbCall :: t) = completionIds t := by
  simp [completionIds]

theorem completionIds_completion_cons (r : Nat) (e : Bool) (t : List Ev) :
    completionIds (Ev.completion r e :: t) = r :: completionIds t := by
  simp [completionIds]

theorem drainLoop_completions (wres : Nat → Nat → WPhase → Bool) (devErr : Bool) (n : Nat)
    (uw : List Camera3Request) (m : List (Nat × List Nat)) (ok : Bool) :
    completionIds (drainLoop wres devErr n uw m ok).events =
      (uw.take n).map Camera3Request.id := by
  induction n generalizing uw m ok with
  | zero => simp [drainLoop, completionIds]
  | succ k ih =>
    cases uw with
    | nil => simp [drainLoop, completionIds]
    | cons r rest =>
      simp [drainLoop, completionIds_append, completionIds_phaseEvs,
        completionIds_completion_cons, ih]

theorem startProcessing_prefix (cfgW : List Nat) (hasCb : Bool)
    (wres : Nat → Nat → WPhase → Bool) (pe : PollEvent) (s : ImguSt) :
    ∃ k, completionIds (startProcessing cfgW hasCb wres pe s).events =
        (s.underwork.take k).map Camera3Request.id ∧
      (startProcessing cfgW hasCb wres pe s).st.underwork = s.underwork.drop k := by
  cases h : s.underwork with
  | nil => exact ⟨0, by simp [startProcessing, h, completionIds]⟩
  | cons front rest =>
    by_cases h1 : front.id < pe.requestId
    · refine ⟨0, ?_, ?_⟩ <;> simp [startProcessing, h, h1, completionIds]
    · by_cases h2 : pe.requestId < front.id
      · refine ⟨0, ?_, ?_⟩ <;> simp [startProcessing, h, h1, h2, completionIds]
      · refine ⟨if (decide (0 < pe.polledDevices) && pe.activeNull) &&
            decide (front.inputBufs = 0) then (front :: rest).length else
            contiguousCount s.delayQ (pe.requestId + 1) + 1, ?_, ?_⟩
        · by_cases h3 : (decide (0 < pe.polledDevices) && pe.activeNull) &&
              decide (front.inputBufs = 0)
          · simp [startProcessing, h, h1, h2, h3, completionIds_append,
              completionIds_devErrEvs, completionIds_errCbOpt, completionIds_pollerFlush,
              completionIds_pollerFlush_cons, drainLoop_completions]
          · simp [startProcessing, h, h1, h2, h3, completionIds_append,
              drainLoop_completions]
        · by_cases h3 : (decide (0 < pe.polledDevices) && pe.activeNull) &&
              decide (front.inputBufs = 0)
          · simp [startProcessing, h, h1, h2, h3, drainLoop_underwork]
          · simp [startProcessing, h, h1, h2, h3, drainLoop_underwork]

theorem runNotifications_prefix (cfgW : List Nat) (hasCb : Bool)
    (wres : Nat → Nat → WPhase → Bool) (pes : List PollEvent) (s : ImguSt) :
    ∃ k, completionIds (runNotifications cfgW hasCb wres pes s).1 =
        (s.underwork.take k).map Camera3Request.id ∧
      (runNotifications cfgW hasCb wres pes s).2.underwork = s.underwork.drop k := by
  induction pes generalizing s with
  | nil => exact ⟨0, by simp [runNotifications, completionIds]⟩
  | cons pe rest ih =>
    obtain ⟨k1, hc1, hu1⟩ := startProcessing_prefix cfgW hasCb wres pe s
    obtain ⟨k2, hc2, hu2⟩ := ih (startProcessing cfgW hasCb wres pe s).st
    refine ⟨k1 + k2, ?_, ?_⟩
    · rw [List.take_add]
      simp only [runNotifications, completionIds_append, hc1, hc2, hu1, List.map_append]
    · simp only [runNotifications, hu2, hu1, List.drop_drop, Nat.add_comm]

/-- C1: with the in-flight queue sorted by strictly increasing request id,
the completion events emitted over any sequence of Poller notifications
are in strictly increasing id order (so a request admitted earlier never
completes after a later one); moreover a notification whose id exceeds the
oldest in-flight request's id emits nothing: it is appended to the Delay
Queue and the in-flight queue is left untouched. -/
theorem C1_completion_order (cfgW : List Nat) (hasCb : Bool)
    (wres : Nat → Nat → WPhase → Bool) (pes : List PollEvent) (s : ImguSt)
    (hs : (s.underwork.map Camera3Request.id).Pairwise (· < ·)) :
    (completionIds (runNotifications cfgW hasCb wres pes s).1).Pairwise (· < ·) ∧
    (∀ pe front rest, s.underwork = front :: rest → front.id < pe.requestId →
      (startProcessing cfgW hasCb wres pe s).events = [] ∧
      (startProcessing cfgW hasCb wres pe s).st.delayQ = s.delayQ ++ [pe.requestId] ∧
      (startProcessing cfgW hasCb wres pe s).st.underwork = s.underwork) := by
  constructor
  · obtain ⟨k, hc, _⟩ := runNotifications_prefix cfgW hasCb wres pes s
    rw [hc, List.map_take]
    exact List.Pairwise.take hs
  · intro pe front rest h hlt
    refine ⟨?_, ?_, ?_⟩ <;> simp [startProcessing, h, hlt]

/-- Witness for C1 at a concrete input: in-flight requests 5 and 6,
notifications arriving as 6 then 5. -/
theorem C1_completion_order_witness :
    (((⟨[⟨5, 0, false⟩, ⟨6, 0, false⟩], [], []⟩ : ImguSt).underwork.map
        Camera3Request.id).Pairwise (· < ·)) ∧
    ((completionIds (runNotifications [] false (fun _ _ _ => true)
        [⟨6, 1, false⟩, ⟨5, 1, false⟩]
        ⟨[⟨5, 0, false⟩, ⟨6, 0, false⟩], [], []⟩).1).Pairwise (· < ·) ∧
    (∀ pe front rest,
      (⟨[⟨5, 0, false⟩, ⟨6, 0, false⟩], [], []⟩ : ImguSt).underwork = front :: rest →
      front.id < pe.requestId →
      (startProcessing [] false (fun _ _ _ => true) pe
        ⟨[⟨5, 0, false⟩, ⟨6, 0, false⟩], [], []⟩).events = [] ∧
      (startProcessing [] false (fun _ _ _ => true) pe
        ⟨[⟨5, 0, false⟩, ⟨6, 0, false⟩], [], []⟩).st.delayQ =
        (⟨[⟨5, 0, false⟩, ⟨6, 0, false⟩], [], []⟩ : ImguSt).delayQ ++ [pe.requestId] ∧
      (startProcessing [] false (fun _ _ _ => true) pe
        ⟨[⟨5, 0, false⟩, ⟨6, 0, false⟩], [], []⟩).st.underwork =
        (⟨[⟨5, 0, false⟩, ⟨6, 0, false⟩], [], []⟩ : ImguSt).underwork)) :=
  ⟨by decide, C1_completion_order [] false (fun _ _ _ => true)
    [⟨6, 1, false⟩, ⟨5, 1, false⟩] ⟨[⟨5, 0, false⟩, ⟨6, 0, false⟩], [], []⟩ (by decide)⟩

theorem completion_not_mem_phaseEvs (r : Nat) (ws : List Nat) (ph : WPhase)
    (q : Nat) (e : Bool) : Ev.completion q e ∉ phaseEvs r ws ph := by
  simp [phaseEvs]

theorem drainLoop_devErr_completions_err (wres : Nat → Nat → WPhase → Bool) (n : Nat)
    (uw : List Camera3Request) (m : List (Nat × List Nat)) (ok : Bool) (q : Nat) (e : Bool)
    (hm : Ev.completion q e ∈ (drainLoop wres true n uw m ok).events) : e = true := by
  induction n generalizing uw m ok with
  | zero => simp [drainLoop] at hm
  | succ k ih =>
    cases uw with
    | nil => simp [drainLoop] at hm
    | cons r rest =>
      simp [drainLoop, phaseEvs] at hm
      rcases hm with ⟨_, h⟩ | h
      · simpa using h
      · exact ih _ _ _ h

/-- C5: a completion notification whose id matches the oldest in-flight
request, carrying a hardware-error marker (devices were polled but the
active-device set is null) for a request with no input buffers, makes
every Worker of the current PipeConfig receive `deviceError`, invokes the
registered error callback, flushes the outstanding Poller waits, and then
drains every in-flight request in the same batch; every drained request's
completion event carries the sticky error flag, and the in-flight set ends
empty. -/
theorem C5_device_error_drains_all (cfgW : List Nat)
    (wres : Nat → Nat → WPhase → Bool) (pe : PollEvent) (s : ImguSt)
    (front : Camera3Request) (rest : List Camera3Request) (r : SPRes)
    (huw : s.underwork = front :: rest)
    (hid : pe.requestId = front.id)
    (hpolled : 0 < pe.polledDevices) (hnull : pe.activeNull = true)
    (hnoin : front.inputBufs = 0)
    (hr : startProcessing cfgW true wres pe s = r) :
    r.events = cfgW.map Ev.devErrCall ++ [Ev.errCbCall, Ev.pollerFlushCall] ++
      (drainLoop wres true s.underwork.length s.underwork s.reqToWork true).events ∧
    r.st.underwork = [] ∧
    completionIds r.events = s.underwork.map Camera3Request.id ∧
    (∀ q e, Ev.completion q e ∈ r.events → e = true) := by
  subst hr
  have hdev : (decide (0 < pe.polledDevices) && pe.activeNull) = true := by
    simp [hpolled, hnull]
  have hcase : ((decide (0 < pe.polledDevices) && pe.activeNull) &&
      decide (front.inputBufs = 0)) = true := by
    simp [hpolled, hnull, hnoin]
  refine ⟨?_, ?_, ?_, ?_⟩
  · simp [startProcessing, huw, hid, hdev, hcase, hnoin, hnull, hpolled]
  · simp [startProcessing, huw, hid, hdev, hcase, hnoin, hnull, hpolled,
      drainLoop_underwork]
  · simp [startProcessing, huw, hid, hdev, hcase, hnoin, hnull, hpolled,
      completionIds_append, completionIds_devErrEvs, completionIds_errCbOpt,
      completionIds_pollerFlush_cons, completionIds_errCb_cons, drainLoop_completions]
  · intro q e hm
    have hev : (startProcessing cfgW true wres pe s).events =
        cfgW.map Ev.devErrCall ++ [Ev.errCbCall, Ev.pollerFlushCall] ++
          (drainLoop wres true s.underwork.length s.underwork s.reqToWork true).events := by
      simp [startProcessing, huw, hid, hdev, hcase, hnoin, hnull, hpolled]
    rw [hev] at hm
    rcases List.mem_append.mp hm with h | h
    · rcases List.mem_append.mp h with h1 | h1
      · exact absurd h1 (by simp)
      · exact absurd h1 (by simp)
    · exact drainLoop_devErr_completions_err wres _ _ _ _ q e h

/-- Witness for C5 at a concrete input: two in-flight requests 5, 6 with
bound Workers 10, 11, PipeConfig Workers 100, 101, and an error
notification (2 polled devices, null active set) for request 5. -/
theorem C5_device_error_drains_all_witness :
    (⟨[Ev.devErrCall 100, Ev.devErrCall 101, Ev.errCbCall, Ev.pollerFlushCall,
        Ev.wcall 5 10 WPhase.asyncPollDone, Ev.wcall 5 10 WPhase.runW,
        Ev.wcall 5 10 WPhase.postRunW, Ev.completion 5 true,
        Ev.wcall 6 11 WPhase.asyncPollDone, Ev.wcall 6 11 WPhase.runW,
        Ev.wcall 6 11 WPhase.postRunW, Ev.completion 6 true],
      ⟨[], [], []⟩, true⟩ : SPRes).events =
      [100, 101].map Ev.devErrCall ++ [Ev.errCbCall, Ev.pollerFlushCall] ++
        (drainLoop (fun _ _ _ => true) true
          (⟨[⟨5, 0, false⟩, ⟨6, 0, false⟩], [], [(5, [10]), (6, [11])]⟩ : ImguSt).underwork.length
          (⟨[⟨5, 0, false⟩, ⟨6, 0, false⟩], [], [(5, [10]), (6, [11])]⟩ : ImguSt).underwork
          (⟨[⟨5, 0, false⟩, ⟨6, 0, false⟩], [], [(5, [10]), (6, [11])]⟩ : ImguSt).reqToWork
          true).events ∧
    (⟨[Ev.devErrCall 100, Ev.devErrCall 101, Ev.errCbCall, Ev.pollerFlushCall,
        Ev.wcall 5 10 WPhase.asyncPollDone, Ev.wcall 5 10 WPhase.runW,
        Ev.wcall 5 10 WPhase.postRunW, Ev.completion 5 true,
        Ev.wcall 6 11 WPhase.asyncPollDone, Ev.wcall 6 11 WPhase.runW,
        Ev.wcall 6 11 WPhase.postRunW, Ev.completion 6 true],
      ⟨[], [], []⟩, true⟩ : SPRes).st.underwork = [] ∧
    completionIds (⟨[Ev.devErrCall 100, Ev.devErrCall 101, Ev.errCbCall, Ev.pollerFlushCall,
        Ev.wcall 5 10 WPhase.asyncPollDone, Ev.wcall 5 10 WPhase.runW,
        Ev.wcall 5 10 WPhase.postRunW, Ev.completion 5 true,
        Ev.wcall 6 11 WPhase.asyncPollDone, Ev.wcall 6 11 WPhase.runW,
        Ev.wcall 6 11 WPhase.postRunW, Ev.completion 6 true],
      ⟨[], [], []⟩, true⟩ : SPRes).events =
      (⟨[⟨5, 0, false⟩, ⟨6, 0, false⟩], [], [(5, [10]), (6, [11])]⟩ : ImguSt).underwork.map
        Camera3Request.id ∧
    (∀ q e, Ev.completion q e ∈ (⟨[Ev.devErrCall 100, Ev.devErrCall 101, Ev.errCbCall,
        Ev.pollerFlushCall,
        Ev.wcall 5 10 WPhase.asyncPollDone, Ev.wcall 5 10 WPhase.runW,
        Ev.wcall 5 10 WPhase.postRunW, Ev.completion 5 true,
        Ev.wcall 6 11 WPhase.asyncPollDone, Ev.wcall 6 11 WPhase.runW,
        Ev.wcall 6 11 WPhase.postRunW, Ev.completion 6 true],
      ⟨[], [], []⟩, true⟩ : SPRes).events → e = true) :=
  C5_device_error_drains_all [100, 101] (fun _ _ _ => true) ⟨5, 2, true⟩
    ⟨[⟨5, 0, false⟩, ⟨6, 0, false⟩], [], [(5, [10]), (6, [11])]⟩
    ⟨5, 0, false⟩ [⟨6, 0, false⟩] _ rfl rfl (by decide) rfl rfl (by decide)

theorem lookupWork_cons (a : Nat) (ws : List Nat) (rest : List (Nat × List Nat)) (j : Nat) :
    lookupWork ((a, ws) :: rest) j = if a = j then ws else lookupWork rest j := by
  by_cases h : a = j <;> simp [lookupWork, List.find?_cons, h]

theorem eraseWork_cons (a : Nat) (ws : List Nat) (rest : List (Nat × List Nat)) (i : Nat) :
    eraseWork ((a, ws) :: rest) i =
      if a = i then eraseWork rest i else (a, ws) :: eraseWork rest i := by
  by_cases h : a = i <;> simp [eraseWork, List.filter_cons, h]

theorem lookupWork_eraseWork (m : List (Nat × List Nat)) (i j : Nat) :
    lookupWork (eraseWork m i) j = if j = i then [] else lookupWork m j := by
  induction m with
  | nil => simp [lookupWork, eraseWork]
  | cons p rest ih =>
    rcases p with ⟨a, ws⟩
    rw [eraseWork_cons]
    by_cases hai : a = i
    · rw [if_pos hai]
      by_cases hji : j = i
      · subst hji
        simp [ih]
      · have haj : a ≠ j := fun h => hji (by rw [← h, hai])
        simp [ih, hji, lookupWork_cons, haj]
    · rw [if_neg hai, lookupWork_cons]
      by_cases haj : a = j
      · have hji : j ≠ i := fun h => hai (by rw [haj, h])
        simp [haj, hji, lookupWork_cons]
      · simp [haj, ih, lookupWork_cons]

theorem lookupWork_foldl_keepNil (ids : List Nat) (m : List (Nat × List Nat)) (i : Nat)
    (h : lookupWork m i = []) : lookupWork (ids.foldl eraseWork m) i = [] := by
  induction ids generalizing m with
  | nil => simpa using h
  | cons j rest ih =>
    simp only [List.foldl_cons]
    apply ih
    rw [lookupWork_eraseWork]
    by_cases hij : i = j <;> simp [hij, h]

theorem lookupWork_foldl_erase (ids : List Nat) (m : List (Nat × List Nat)) (i : Nat) :
    i ∈ ids → lookupWork (ids.foldl eraseWork m) i = [] := by
  induction ids generalizing m with
  | nil =>
    intro h
    simp at h
  | cons j rest ih =>
    intro hi
    simp only [List.foldl_cons]
    rcases List.mem_cons.mp hi with h | h
    · subst h
      apply lookupWork_foldl_keepNil
      simp [lookupWork_eraseWork]
    · exact ih _ h

theorem drainLoop_reqToWork (wres : Nat → Nat → WPhase → Bool) (devErr : Bool) (n : Nat)
    (uw : List Camera3Request) (m : List (Nat × List Nat)) (ok : Bool) :
    (drainLoop wres devErr n uw m ok).reqToWork =
      ((uw.take n).map Camera3Request.id).foldl eraseWork m := by
  induction n generalizing uw m ok with
  | zero => simp [drainLoop]
  | succ k ih =>
    cases uw with
    | nil => simp [drainLoop]
    | cons r rest => simp [drainLoop, ih]

theorem phaseOk_true (wres : Nat → Nat → WPhase → Bool)
    (hw : ∀ r w p, wres r w p = true) (r : Nat) (ws : List Nat) (ph : WPhase) :
    phaseOk wres r ws ph = true := by
  simp [phaseOk, hw]

theorem drainLoop_join (wres : Nat → Nat → WPhase → Bool)
    (hw : ∀ r w p, wres r w p = true) (n : Nat) (uw : List Camera3Request)
    (m : List (Nat × List Nat)) (hnd : (uw.map Camera3Request.id).Nodup) :
    (drainLoop wres false n uw m true).events =
      ((uw.take n).map (fun q =>
        phaseEvs q.id (lookupWork m q.id) WPhase.asyncPollDone ++
        phaseEvs q.id (lookupWork m q.id) WPhase.runW ++
        phaseEvs q.id (lookupWork m q.id) WPhase.postRunW ++
        [Ev.completion q.id q.err])).join := by
  induction n generalizing uw m with
  | zero => simp [drainLoop]
  | succ k ih =>
    cases uw with
    | nil => simp [drainLoop]
    | cons r rest =>
      have hok : (true && phaseOk wres r.id (lookupWork m r.id) WPhase.asyncPollDone &&
          phaseOk wres r.id (lookupWork m r.id) WPhase.runW &&
          phaseOk wres r.id (lookupWork m r.id) WPhase.postRunW) = true := by
        simp [phaseOk_true wres hw]
      have hnd' : (rest.map Camera3Request.id).Nodup := by
        simp at hnd
        exact hnd.2
      have hrid : ∀ q ∈ rest, q.id ≠ r.id := by
        simp at hnd
        intro q hq he
        exact absurd he (hnd.1 q hq)
      have hlook : ∀ q ∈ rest.take k, lookupWork (eraseWork m r.id) q.id = lookupWork m q.id := by
        intro q hq
        rw [lookupWork_eraseWork]
        simp [hrid q (List.mem_of_mem_take hq)]
      simp only [drainLoop, hok, ih rest (eraseWork m r.id) hnd', List.take_succ_cons,
        List.map_cons, List.join]
      rw [List.map_congr_left (fun q hq => by rw [hlook q hq])]
      simp

theorem contiguousCount_mem (q : List Nat) (a : Nat) (k : Nat)
    (hk : k < contiguousCount q a) : a + k ∈ q := by
  induction q generalizing a k with
  | nil => simp [contiguousCount] at hk
  | cons x rest ih =>
    by_cases hx : x = a
    · simp only [contiguousCount, if_pos hx] at hk
      cases k with
      | zero => simp [hx]
      | succ j =>
        have hj : j < contiguousCount rest (a + 1) := by omega
        have h2 := ih (a + 1) j hj
        have he : a + (j + 1) = (a + 1) + j := by omega
        rw [he]
        exact List.mem_cons_of_mem _ h2
    · simp [contiguousCount, hx] at hk

theorem contiguousCount_take (q : List Nat) (a : Nat) :
    q.take (contiguousCount q a) = List.range' a (contiguousCount q a) := by
  induction q generalizing a with
  | nil => simp [contiguousCount]
  | cons x rest ih =>
    by_cases hx : x = a
    · simp only [contiguousCount, if_pos hx, List.take_succ_cons]
      rw [show List.range' a (contiguousCount rest (a + 1) + 1) =
        a :: List.range' (a + 1) (contiguousCount rest (a + 1)) from rfl]
      rw [ih (a + 1), hx]
    · simp [contiguousCount, hx]

theorem take_range' (m a n : Nat) (h : m ≤ n) :
    (List.range' a n).take m = List.range' a m := by
  induction m generalizing a n with
  | zero => simp
  | succ k ih =>
    cases n with
    | zero => omega
    | succ n' =>
      rw [show List.range' a (n' + 1) = a :: List.range' (a + 1) n' from rfl,
        List.take_succ_cons,
        show List.range' a (k + 1) = a :: List.range' (a + 1) k from rfl,
        ih (a + 1) n' (by omega)]

/-- C2 counterexample: with in-flight requests 5, 6, 7 and the Delay Queue
holding both 6 (= expected+1) and 7 (= expected+2) — but in arrival order
[7, 6] — a notification for the oldest id 5 drains only request 5: the
contiguously-following buffered ids are not drained with it, contrary to
the claim, because the source only consumes a contiguous *prefix* of the
Delay Queue. -/
theorem C2_batch_drain_counterexample :
    (6 ∈ ([7, 6] : List Nat) ∧ 7 ∈ ([7, 6] : List Nat)) ∧
    completionIds (startProcessing [] false (fun _ _ _ => true) ⟨5, 1, false⟩
      ⟨[⟨5, 0, false⟩, ⟨6, 0, false⟩, ⟨7, 0, false⟩], [7, 6], []⟩).events = [5] ∧
    (startProcessing [] false (fun _ _ _ => true) ⟨5, 1, false⟩
      ⟨[⟨5, 0, false⟩, ⟨6, 0, false⟩, ⟨7, 0, false⟩], [7, 6], []⟩).st.underwork =
      [⟨6, 0, false⟩, ⟨7, 0, false⟩] ∧
    (startProcessing [] false (fun _ _ _ => true) ⟨5, 1, false⟩
      ⟨[⟨5, 0, false⟩, ⟨6, 0, false⟩, ⟨7, 0, false⟩], [7, 6], []⟩).st.delayQ = [7, 6] := by
  decide

/-- C2 (amended): when a successful completion notification's id equals the
oldest in-flight request's id, that request together with the maximal run
`expected+1, expected+2, …` forming a contiguous *prefix* of the Delay
Queue is drained as one batch: the consumed prefix is exactly
`[expected+1, …, expected+c]`, the drained requests are the first `c+1`
in-flight ones (ids `expected … expected+c`), each drained request's trace
is `asyncPollDone` on every bound Worker, then `run` on every bound
Worker, then `postRun` on every bound Worker, followed by its completion
event, and each drained request leaves the in-flight set and the
request-to-Worker binding table. -/
theorem C2_batch_drain (cfgW : List Nat) (hasCb : Bool)
    (wres : Nat → Nat → WPhase → Bool) (pe : PollEvent) (s : ImguSt)
    (front : Camera3Request) (rest : List Camera3Request) (r : SPRes)
    (huw : s.underwork = front :: rest)
    (hid : pe.requestId = front.id)
    (hnorm : pe.activeNull = false)
    (hw : ∀ a w p, wres a w p = true)
    (hconsec : s.underwork.map Camera3Request.id =
      List.range' front.id s.underwork.length)
    (hqmem : ∀ x ∈ s.delayQ, x ∈ s.underwork.map Camera3Request.id)
    (hr : startProcessing cfgW hasCb wres pe s = r) :
    r.events = ((s.underwork.take (contiguousCount s.delayQ (pe.requestId + 1) + 1)).map
      (fun q =>
        phaseEvs q.id (lookupWork s.reqToWork q.id) WPhase.asyncPollDone ++
        phaseEvs q.id (lookupWork s.reqToWork q.id) WPhase.runW ++
        phaseEvs q.id (lookupWork s.reqToWork q.id) WPhase.postRunW ++
        [Ev.completion q.id q.err])).join ∧
    r.st.underwork = s.underwork.drop (contiguousCount s.delayQ (pe.requestId + 1) + 1) ∧
    r.st.delayQ = s.delayQ.drop (contiguousCount s.delayQ (pe.requestId + 1)) ∧
    (∀ q ∈ s.underwork.take (contiguousCount s.delayQ (pe.requestId + 1) + 1),
      lookupWork r.st.reqToWork q.id = []) ∧
    (s.underwork.take (contiguousCount s.delayQ (pe.requestId + 1) + 1)).map
      Camera3Request.id =
      List.range' pe.requestId (contiguousCount s.delayQ (pe.requestId + 1) + 1) ∧
    s.delayQ.take (contiguousCount s.delayQ (pe.requestId + 1)) =
      List.range' (pe.requestId + 1) (contiguousCount s.delayQ (pe.requestId + 1)) := by
  subst hr
  have hnd : (s.underwork.map Camera3Request.id).Nodup := by
    rw [hconsec]
    exact List.nodup_range' front.id s.underwork.length
  have hlt1 : ¬front.id < pe.requestId := by omega
  have hlt2 : ¬pe.requestId < front.id := by omega
  have hdev : (decide (0 < pe.polledDevices) && pe.activeNull) = false := by
    simp [hnorm]
  have hlen : contiguousCount s.delayQ (pe.requestId + 1) + 1 ≤ s.underwork.length := by
    rcases Nat.eq_zero_or_pos (contiguousCount s.delayQ (pe.requestId + 1)) with h0 | hpos
    · rw [h0, huw]
      simp
    · have hmem := contiguousCount_mem s.delayQ (pe.requestId + 1)
        (contiguousCount s.delayQ (pe.requestId + 1) - 1) (by omega)
      have hx := hqmem _ hmem
      rw [hconsec, List.mem_range'_1] at hx
      omega
  refine ⟨?_, ?_, ?_, ?_, ?_, ?_⟩
  · simp only [startProcessing, huw, hlt1, hlt2, hdev, Bool.false_and, Bool.and_false,
      if_false, if_neg, Bool.false_eq_true, not_false_eq_true]
    rw [← huw]
    exact drainLoop_join wres hw _ s.underwork s.reqToWork hnd
  · simp only [startProcessing, huw, hlt1, hlt2, hdev, Bool.false_and, Bool.and_false,
      if_false, if_neg, Bool.false_eq_true, not_false_eq_true]
    rw [← huw, drainLoop_underwork]
  · simp only [startProcessing, huw, hlt1, hlt2, hdev, Bool.false_and, Bool.and_false,
      if_false, if_neg, Bool.false_eq_true, not_false_eq_true]
  · intro q hq
    simp only [startProcessing, huw, hlt1, hlt2, hdev, Bool.false_and, Bool.and_false,
      if_false, if_neg, Bool.false_eq_true, not_false_eq_true]
    rw [← huw, drainLoop_reqToWork]
    apply lookupWork_foldl_erase
    exact List.mem_map_of_mem Camera3Request.id hq
  · rw [List.map_take, hconsec, hid]
    rw [hid] at hlen
    exact take_range' _ _ _ hlen
  · have := contiguousCount_take s.delayQ (pe.requestId + 1)
    exact this

/-- Witness for C2 (amended) at a concrete input: in-flight requests
5, 6, 7 with bound Workers 10, 11, 12, Delay Queue [6, 7], and a
successful notification for the oldest id 5: all three drain in one
batch. -/
theorem C2_batch_drain_witness :
    (⟨[Ev.wcall 5 10 WPhase.asyncPollDone, Ev.wcall 5 10 WPhase.runW,
        Ev.wcall 5 10 WPhase.postRunW, Ev.completion 5 false,
        Ev.wcall 6 11 WPhase.asyncPollDone, Ev.wcall 6 11 WPhase.runW,
        Ev.wcall 6 11 WPhase.postRunW, Ev.completion 6 false,
        Ev.wcall 7 12 WPhase.asyncPollDone, Ev.wcall 7 12 WPhase.runW,
        Ev.wcall 7 12 WPhase.postRunW, Ev.completion 7 false],
      ⟨[], [], []⟩, true⟩ : SPRes).events =
      (((⟨[⟨5, 0, false⟩, ⟨6, 0, false⟩, ⟨7, 0, false⟩], [6, 7],
          [(5, [10]), (6, [11]), (7, [12])]⟩ : ImguSt).underwork.take
        (contiguousCount (⟨[⟨5, 0, false⟩, ⟨6, 0, false⟩, ⟨7, 0, false⟩], [6, 7],
          [(5, [10]), (6, [11]), (7, [12])]⟩ : ImguSt).delayQ
          ((⟨5, 1, false⟩ : PollEvent).requestId + 1) + 1)).map
      (fun q =>
        phaseEvs q.id (lookupWork (⟨[⟨5, 0, false⟩, ⟨6, 0, false⟩, ⟨7, 0, false⟩], [6, 7],
          [(5, [10]), (6, [11]), (7, [12])]⟩ : ImguSt).reqToWork q.id)
          WPhase.asyncPollDone ++
        phaseEvs q.id (lookupWork (⟨[⟨5, 0, false⟩, ⟨6, 0, false⟩, ⟨7, 0, false⟩], [6, 7],
          [(5, [10]), (6, [11]), (7, [12])]⟩ : ImguSt).reqToWork q.id)
          WPhase.runW ++
        phaseEvs q.id (lookupWork (⟨[⟨5, 0, false⟩, ⟨6, 0, false⟩, ⟨7, 0, false⟩], [6, 7],
          [(5, [10]), (6, [11]), (7, [12])]⟩ : ImguSt).reqToWork q.id)
          WPhase.postRunW ++
        [Ev.completion q.id q.err])).join ∧
    (⟨[Ev.wcall 5 10 WPhase.asyncPollDone, Ev.wcall 5 10 WPhase.runW,
        Ev.wcall 5 10 WPhase.postRunW, Ev.completion 5 false,
        Ev.wcall 6 11 WPhase.asyncPollDone, Ev.wcall 6 11 WPhase.runW,
        Ev.wcall 6 11 WPhase.postRunW, Ev.completion 6 false,
        Ev.wcall 7 12 WPhase.asyncPollDone, Ev.wcall 7 12 WPhase.runW,
        Ev.wcall 7 12 WPhase.postRunW, Ev.completion 7 false],
      ⟨[], [], []⟩, true⟩ : SPRes).st.underwork =
      (⟨[⟨5, 0, false⟩, ⟨6, 0, false⟩, ⟨7, 0, false⟩], [6, 7],
        [(5, [10]), (6, [11]), (7, [12])]⟩ : ImguSt).underwork.drop
        (contiguousCount (⟨[⟨5, 0, false⟩, ⟨6, 0, false⟩, ⟨7, 0, false⟩], [6, 7],
          [(5, [10]), (6, [11]), (7, [12])]⟩ : ImguSt).delayQ
          ((⟨5, 1, false⟩ : PollEvent).requestId + 1) + 1) ∧
    (⟨[Ev.wcall 5 10 WPhase.asyncPollDone, Ev.wcall 5 10 WPhase.runW,
        Ev.wcall 5 10 WPhase.postRunW, Ev.completion 5 false,
        Ev.wcall 6 11 WPhase.asyncPollDone, Ev.wcall 6 11 WPhase.runW,
        Ev.wcall 6 11 WPhase.postRunW, Ev.completion 6 false,
        Ev.wcall 7 12 WPhase.asyncPollDone, Ev.wcall 7 12 WPhase.runW,
        Ev.wcall 7 12 WPhase.postRunW, Ev.completion 7 false],
      ⟨[], [], []⟩, true⟩ : SPRes).st.delayQ =
      (⟨[⟨5, 0, false⟩, ⟨6, 0, false⟩, ⟨7, 0, false⟩], [6, 7],
        [(5, [10]), (6, [11]), (7, [12])]⟩ : ImguSt).delayQ.drop
        (contiguousCount (⟨[⟨5, 0, false⟩, ⟨6, 0, false⟩, ⟨7, 0, false⟩], [6, 7],
          [(5, [10]), (6, [11]), (7, [12])]⟩ : ImguSt).delayQ
          ((⟨5, 1, false⟩ : PollEvent).requestId + 1)) ∧
    (∀ q ∈ (⟨[⟨5, 0, false⟩, ⟨6, 0, false⟩, ⟨7, 0, false⟩], [6, 7],
        [(5, [10]), (6, [11]), (7, [12])]⟩ : ImguSt).underwork.take
        (contiguousCount (⟨[⟨5, 0, false⟩, ⟨6, 0, false⟩, ⟨7, 0, false⟩], [6, 7],
          [(5, [10]), (6, [11]), (7, [12])]⟩ : ImguSt).delayQ
          ((⟨5, 1, false⟩ : PollEvent).requestId + 1) + 1),
      lookupWork (⟨[Ev.wcall 5 10 WPhase.asyncPollDone, Ev.wcall 5 10 WPhase.runW,
        Ev.wcall 5 10 WPhase.postRunW, Ev.completion 5 false,
        Ev.wcall 6 11 WPhase.asyncPollDone, Ev.wcall 6 11 WPhase.runW,
        Ev.wcall 6 11 WPhase.postRunW, Ev.completion 6 false,
        Ev.wcall 7 12 WPhase.asyncPollDone, Ev.wcall 7 12 WPhase.runW,
        Ev.wcall 7 12 WPhase.postRunW, Ev.completion 7 false],
      ⟨[], [], []⟩, true⟩ : SPRes).st.reqToWork q.id = []) ∧
    ((⟨[⟨5, 0, false⟩, ⟨6, 0, false⟩, ⟨7, 0, false⟩], [6, 7],
        [(5, [10]), (6, [11]), (7, [12])]⟩ : ImguSt).underwork.take
        (contiguousCount (⟨[⟨5, 0, false⟩, ⟨6, 0, false⟩, ⟨7, 0, false⟩], [6, 7],
          [(5, [10]), (6, [11]), (7, [12])]⟩ : ImguSt).delayQ
          ((⟨5, 1, false⟩ : PollEvent).requestId + 1) + 1)).map Camera3Request.id =
      List.range' (⟨5, 1, false⟩ : PollEvent).requestId
        (contiguousCount (⟨[⟨5, 0, false⟩, ⟨6, 0, false⟩, ⟨7, 0, false⟩], [6, 7],
          [(5, [10]), (6, [11]), (7, [12])]⟩ : ImguSt).delayQ
          ((⟨5, 1, false⟩ : PollEvent).requestId + 1) + 1) ∧
    (⟨[⟨5, 0, false⟩, ⟨6, 0, false⟩, ⟨7, 0, false⟩], [6, 7],
        [(5, [10]), (6, [11]), (7, [12])]⟩ : ImguSt).delayQ.take
        (contiguousCount (⟨[⟨5, 0, false⟩, ⟨6, 0, false⟩, ⟨7, 0, false⟩], [6, 7],
          [(5, [10]), (6, [11]), (7, [12])]⟩ : ImguSt).delayQ
          ((⟨5, 1, false⟩ : PollEvent).requestId + 1)) =
      List.range' ((⟨5, 1, false⟩ : PollEvent).requestId + 1)
        (contiguousCount (⟨[⟨5, 0, false⟩, ⟨6, 0, false⟩, ⟨7, 0, false⟩], [6, 7],
          [(5, [10]), (6, [11]), (7, [12])]⟩ : ImguSt).delayQ
          ((⟨5, 1, false⟩ : PollEvent).requestId + 1)) :=
  C2_batch_drain [] false (fun _ _ _ => true) ⟨5, 1, false⟩
    ⟨[⟨5, 0, false⟩, ⟨6, 0, false⟩, ⟨7, 0, false⟩], [6, 7], [(5, [10]), (6, [11]), (7, [12])]⟩
    ⟨5, 0, false⟩ [⟨6, 0, false⟩, ⟨7, 0, false⟩] _ rfl rfl rfl (fun _ _ _ => rfl)
    (by decide) (by decide) (by decide)

/-- C3 counterexample: with a current PipeConfig whose single Worker fails
to stop, `handleMessageFlush` returns the failure before `clearWorkers`,
so the Worker/Node bookkeeping is left non-empty — the claim's "always
empty, including when stopping a Worker fails" is false on the code. -/
theorem C3_flush_counterexample :
    (handleMessageFlush (fun _ => false) (some [⟨1, true, 1, true⟩])
      ⟨⟨[⟨1, true, 1, true⟩], [⟨1, true, 1, true⟩], [1]⟩, ⟨[], [], []⟩, [1]⟩).ok = false ∧
    (handleMessageFlush (fun _ => false) (some [⟨1, true, 1, true⟩])
      ⟨⟨[⟨1, true, 1, true⟩], [⟨1, true, 1, true⟩], [1]⟩, ⟨[], [], []⟩,
        [1]⟩).book.videoCfg.deviceWorkers ≠ [] := by
  decide

/-- C3 (amended): a flush clears all Worker/Node bookkeeping (every
PipeConfig's deviceWorkers, pollableWorkers and nodes, and the listener
Workers) whenever there is no current PipeConfig or every `stopWorker`
succeeds; when a `stopWorker` fails, the handler propagates the failure
and returns *before* clearing, leaving the bookkeeping unchanged.  The
controller's `mState` field is never written after construction, so it
remains `IMGU_IDLE` throughout. -/
theorem C3_flush_bookkeeping (stopRes : Nat → Bool) (cur : Option (List Worker))
    (book : PipeBook) :
    ((cur = none ∨ ∃ ws, cur = some ws ∧ stopAll stopRes ws = true) →
      handleMessageFlush stopRes cur book = ⟨true, clearWorkers, true⟩) ∧
    (∀ ws, cur = some ws → stopAll stopRes ws = false →
      handleMessageFlush stopRes cur book = ⟨false, book, true⟩) := by
  constructor
  · intro h
    rcases h with h | ⟨ws, h, hs⟩
    · simp [handleMessageFlush, h]
    · simp [handleMessageFlush, h, hs]
  · intro ws h hs
    simp [handleMessageFlush, h, hs]

/-- Witness for C3 (amended) at a concrete input: one Worker that stops
successfully; the bookkeeping is cleared. -/
theorem C3_flush_bookkeeping_witness :
    handleMessageFlush (fun _ => true) (some [⟨1, true, 1, true⟩])
      ⟨⟨[⟨1, true, 1, true⟩], [], [1]⟩, ⟨[], [], []⟩, [1]⟩ =
      ⟨true, clearWorkers, true⟩ :=
  (C3_flush_bookkeeping (fun _ => true) (some [⟨1, true, 1, true⟩])
    ⟨⟨[⟨1, true, 1, true⟩], [], [1]⟩, ⟨[], [], []⟩, [1]⟩).1
    (Or.inr ⟨[⟨1, true, 1, true⟩], rfl, by decide⟩)

theorem notifyCall_flushing (c : Ctrl) (pm : PollEventMessage) :
    (notifyCall c pm).flushing = c.flushing := by
  unfold notifyCall
  rcases h : notifyPollEvent c.flushing pm with ⟨st, q⟩
  cases q <;> simp

theorem applyCOps_flushing (ops : List COp) : ∀ c : Ctrl, c.flushing = true →
    (applyCOps c ops).flushing = true := by
  induction ops with
  | nil =>
    intro c h
    exact h
  | cons op rest ih =>
    intro c h
    apply ih
    cases op with
    | opFlush => rfl
    | opHandleFlush => exact h
    | opNotify pm => rw [applyCOp, notifyCall_flushing, h]

/-- C10: `flush()` sets the flushing flag; while it is set, every
successful poll-event notification is dropped (`notifyPollEvent` returns
OK and enqueues nothing); the flag survives any sequence of flushes,
flush-message handlings and notifications (the flush handler never clears
it); only `configStreams` resets it. -/
theorem C10_flushing_drops_notifications (c : Ctrl) (pm : PollEventMessage)
    (l : List Nat)
    (hk : pm.kind = PollKind.event)
    (hact : pm.activeDevices = some l) (hl : l ≠ [])
    (hp : pm.polledDevices ≠ []) (heq : l.length = pm.polledDevices.length) :
    (flushCall c).flushing = true ∧
    notifyPollEvent true pm = (NotifyStatus.okN, none) ∧
    (∀ ops : List COp, (applyCOps (flushCall c) ops).flushing = true) ∧
    (configStreamsReset c).flushing = false := by
  refine ⟨rfl, ?_, ?_, rfl⟩
  · have hl' : l.length ≠ 0 := fun h => hl (List.length_eq_zero.mp h)
    have hp' : pm.polledDevices.length ≠ 0 := fun h => hp (List.length_eq_zero.mp h)
    simp [notifyPollEvent, hact, hk, hl', hp', heq]
  · intro ops
    exact applyCOps_flushing ops (flushCall c) rfl

/-- Witness for C10 at a concrete input: a successful one-device poll
event arriving while flushing. -/
theorem C10_flushing_drops_notifications_witness :
    (flushCall ⟨false, []⟩).flushing = true ∧
    notifyPollEvent true ⟨PollKind.event, 3, some [1], [2]⟩ = (NotifyStatus.okN, none) ∧
    (∀ ops : List COp, (applyCOps (flushCall ⟨false, []⟩) ops).flushing = true) ∧
    (configStreamsReset ⟨false, []⟩).flushing = false :=
  C10_flushing_drops_notifications ⟨false, []⟩ ⟨PollKind.event, 3, some [1], [2]⟩
    [1] rfl rfl (by decide) (by decide) rfl

theorem prepLoop_no_dummy (prepRes : Nat → Bool) (req : Camera3Request)
    (hin : req.inputBufs = 0) :
    ∀ (ws : List Worker) (ok : Bool) (acc : List Nat),
    prepLoop prepRes req ws ok acc =
      (ok && ws.all (fun w => prepRes w.wid), acc ++ ws.map Worker.wid, [], none) := by
  intro ws
  induction ws with
  | nil =>
    intro ok acc
    simp [prepLoop]
  | cons w rest ih =>
    intro ok acc
    rw [prepLoop]
    simp [hin, ih, Bool.and_assoc]

/-- C9 counterexample: on the very first request after (re)configuration,
a listening task's `settings` failure is *not* recorded on the request —
`status = kickstart()` overwrites the accumulated failure, so when
kickstart and all `prepareRun` calls succeed, `setError` is never called,
contrary to the claim. -/
theorem C9_settings_failure_counterexample :
    (handleMessageCompleteReq [false] (fun _ => true) (fun _ => true) ⟨1, 0, false⟩
      ⟨[⟨1, true, 1, true⟩], [⟨1, true, 1, true⟩], []⟩ true).errorSet = false ∧
    ([false].all (fun b => b) = false) := by
  decide

/-- C9 (amended): a listening task's `settings` failure is recorded on the
request (the sticky error flag is set by completion time) for every
request *except* the first one after (re)configuration, where a successful
kickstart overwrites the recorded failure; in both cases admission still
proceeds: every device Worker receives `prepareRun` and the Poller wait is
issued exactly when the accumulated waitable-node set is non-empty. -/
theorem C9_settings_failure (settingsRes : List Bool) (startRes prepRes : Nat → Bool)
    (req : Camera3Request) (cfg : PipeConfiguration) (first : Bool)
    (hfail : settingsRes.all (fun b => b) = false)
    (hin : req.inputBufs = 0)
    (hprep : ∀ w ∈ cfg.deviceWorkers, prepRes w.wid = true) :
    (first = false →
      (handleMessageCompleteReq settingsRes startRes prepRes req cfg first).errorSet = true ∧
      (handleMessageCompleteReq settingsRes startRes prepRes req cfg
        first).admission.prepared = cfg.deviceWorkers.map Worker.wid ∧
      (handleMessageCompleteReq settingsRes startRes prepRes req cfg
        first).admission.nodes =
        (cfg.pollableWorkers.filter (fun w => w.needsPolling)).map Worker.node ∧
      (handleMessageCompleteReq settingsRes startRes prepRes req cfg first).pollIssued =
        !((cfg.pollableWorkers.filter (fun w => w.needsPolling)).map Worker.node).isEmpty) ∧
    (first = true → kickstart startRes cfg.deviceWorkers = true →
      (handleMessageCompleteReq settingsRes startRes prepRes req cfg first).errorSet = false ∧
      (handleMessageCompleteReq settingsRes startRes prepRes req cfg
        first).admission.prepared = cfg.deviceWorkers.map Worker.wid) := by
  have hall : cfg.deviceWorkers.all (fun w => prepRes w.wid) = true := by
    rw [List.all_eq_true]
    intro w hw
    simp [hprep w hw]
  have hfilter : cfg.pollableWorkers.filter
      (fun w => w.needsPolling && decide (req.inputBufs = 0)) =
      cfg.pollableWorkers.filter (fun w => w.needsPolling) := by
    apply List.filter_congr
    intro w _
    simp [hin]
  constructor
  · intro hf
    subst hf
    simp only [handleMessageCompleteReq, processNextRequest, Bool.false_and,
      Bool.not_false, if_false, Bool.false_eq_true, not_false_eq_true,
      prepLoop_no_dummy prepRes req hin, hfail, hall, hfilter]
    simp
  · intro hf hk
    subst hf
    simp only [handleMessageCompleteReq, processNextRequest, hk, Bool.not_true,
      Bool.and_false, if_false, Bool.true_and, Bool.false_eq_true, not_false_eq_true,
      prepLoop_no_dummy prepRes req hin, hall, hfilter]
    simp

/-- Witness for C9 (amended) at a concrete input: one failing listening
task, a non-first request, one pollable Worker. -/
theorem C9_settings_failure_witness :
    (false = false →
      (handleMessageCompleteReq [false] (fun _ => true) (fun _ => true) ⟨2, 0, false⟩
        ⟨[⟨1, true, 1, true⟩], [⟨1, true, 1, true⟩], []⟩ false).errorSet = true ∧
      (handleMessageCompleteReq [false] (fun _ => true) (fun _ => true) ⟨2, 0, false⟩
        ⟨[⟨1, true, 1, true⟩], [⟨1, true, 1, true⟩], []⟩ false).admission.prepared =
        ([⟨1, true, 1, true⟩] : List Worker).map Worker.wid ∧
      (handleMessageCompleteReq [false] (fun _ => true) (fun _ => true) ⟨2, 0, false⟩
        ⟨[⟨1, true, 1, true⟩], [⟨1, true, 1, true⟩], []⟩ false).admission.nodes =
        (([⟨1, true, 1, true⟩] : List Worker).filter
          (fun w => w.needsPolling)).map Worker.node ∧
      (handleMessageCompleteReq [false] (fun _ => true) (fun _ => true) ⟨2, 0, false⟩
        ⟨[⟨1, true, 1, true⟩], [⟨1, true, 1, true⟩], []⟩ false).pollIssued =
        !((([⟨1, true, 1, true⟩] : List Worker).filter
          (fun w => w.needsPolling)).map Worker.node).isEmpty) ∧
    (false = true → kickstart (fun _ => true) [⟨1, true, 1, true⟩] = true →
      (handleMessageCompleteReq [false] (fun _ => true) (fun _ => true) ⟨2, 0, false⟩
        ⟨[⟨1, true, 1, true⟩], [⟨1, true, 1, true⟩], []⟩ false).errorSet = false ∧
      (handleMessageCompleteReq [false] (fun _ => true) (fun _ => true) ⟨2, 0, false⟩
        ⟨[⟨1, true, 1, true⟩], [⟨1, true, 1, true⟩], []⟩ false).admission.prepared =
        ([⟨1, true, 1, true⟩] : List Worker).map Worker.wid) :=
  C9_settings_failure [false] (fun _ => true) (fun _ => true) ⟨2, 0, false⟩
    ⟨[⟨1, true, 1, true⟩], [⟨1, true, 1, true⟩], []⟩ false rfl rfl
    (fun _ _ => rfl)

/-- C6: (a) when an input Stream exists, the Input-Worker is prepended to
the primary (video) PipeConfig's device-Worker list, while the pollable
Workers and the waitable-Node list are exactly those built without the
input Stream (the Input-Worker is in neither); (b) admitting a request
with input buffers through a PipeConfig whose first device Worker has no
hardware node binds that Worker to the request, pushes a synthetic
completion notification carrying zero polled devices, prepares only that
Worker (admission returns immediately) and issues no Poller wait. -/
theorem C6_input_worker (ns : List (NodeTypes × Nat)) (inWid : Nat)
    (vcfg scfg : PipeConfiguration)
    (settingsRes : List Bool) (startRes prepRes : Nat → Bool)
    (req : Camera3Request) (w : Worker) (rest : List Worker)
    (pw : List Worker) (nodes0 : List Nat)
    (hbuild : buildConfigs ns true inWid = some (vcfg, scfg))
    (hw : w.hasNode = false) (hin : 0 < req.inputBufs) :
    (∃ vcfg0, buildConfigs ns false inWid = some (vcfg0, scfg) ∧
      vcfg.deviceWorkers = (⟨inWid, false, 0, false⟩ : Worker) :: vcfg0.deviceWorkers ∧
      vcfg.pollableWorkers = vcfg0.pollableWorkers ∧
      vcfg.nodes = vcfg0.nodes) ∧
    ((handleMessageCompleteReq settingsRes startRes prepRes req
        ⟨w :: rest, pw, nodes0⟩ false).admission.dummyMsg = some ⟨req.id, 0, true⟩ ∧
      (handleMessageCompleteReq settingsRes startRes prepRes req
        ⟨w :: rest, pw, nodes0⟩ false).admission.bound = [w.wid] ∧
      (handleMessageCompleteReq settingsRes startRes prepRes req
        ⟨w :: rest, pw, nodes0⟩ false).admission.nodes = [] ∧
      (handleMessageCompleteReq settingsRes startRes prepRes req
        ⟨w :: rest, pw, nodes0⟩ false).admission.prepared = [w.wid] ∧
      (handleMessageCompleteReq settingsRes startRes prepRes req
        ⟨w :: rest, pw, nodes0⟩ false).pollIssued = false) := by
  constructor
  · cases hb : buildLoop ns ⟨[], [], []⟩ none none with
    | none => simp [buildConfigs, hb] at hbuild
    | some t =>
      rcases t with ⟨cfg0, vf, pv⟩
      simp only [buildConfigs, hb, if_true, Option.some.injEq] at hbuild ⊢
      cases vf <;> cases pv <;>
        simp_all <;>
        exact ⟨hbuild.1 ▸ rfl, hbuild.1 ▸ rfl, hbuild.1 ▸ rfl⟩
  · have hcond : (!w.hasNode && decide (0 < req.inputBufs)) = true := by
      simp [hw, hin]
    refine ⟨?_, ?_, ?_, ?_, ?_⟩ <;>
      simp [handleMessageCompleteReq, processNextRequest, prepLoop, hcond]

/-- Witness for C6 at a concrete input: nodes video(7) and vf-preview(8),
Input-Worker id 99, and a request with one input buffer admitted through a
PipeConfig whose first Worker is the node-less Input-Worker. -/
theorem C6_input_worker_witness :
    (∃ vcfg0, buildConfigs [(NodeTypes.video, 7), (NodeTypes.vfPreview, 8)] false 99 =
        some (vcfg0, ⟨[], [], []⟩) ∧
      (⟨[⟨99, false, 0, false⟩, ⟨8, true, 8, true⟩, ⟨7, true, 7, true⟩],
        [⟨8, true, 8, true⟩, ⟨7, true, 7, true⟩], [8, 7]⟩ :
          PipeConfiguration).deviceWorkers =
        (⟨99, false, 0, false⟩ : Worker) :: vcfg0.deviceWorkers ∧
      (⟨[⟨99, false, 0, false⟩, ⟨8, true, 8, true⟩, ⟨7, true, 7, true⟩],
        [⟨8, true, 8, true⟩, ⟨7, true, 7, true⟩], [8, 7]⟩ :
          PipeConfiguration).pollableWorkers = vcfg0.pollableWorkers ∧
      (⟨[⟨99, false, 0, false⟩, ⟨8, true, 8, true⟩, ⟨7, true, 7, true⟩],
        [⟨8, true, 8, true⟩, ⟨7, true, 7, true⟩], [8, 7]⟩ :
          PipeConfiguration).nodes = vcfg0.nodes) ∧
    ((handleMessageCompleteReq [true] (fun _ => true) (fun _ => true) ⟨4, 1, false⟩
        ⟨⟨99, false, 0, false⟩ :: [⟨7, true, 7, true⟩], [⟨7, true, 7, true⟩], []⟩
        false).admission.dummyMsg = some ⟨4, 0, true⟩ ∧
      (handleMessageCompleteReq [true] (fun _ => true) (fun _ => true) ⟨4, 1, false⟩
        ⟨⟨99, false, 0, false⟩ :: [⟨7, true, 7, true⟩], [⟨7, true, 7, true⟩], []⟩
        false).admission.bound = [(⟨99, false, 0, false⟩ : Worker).wid] ∧
      (handleMessageCompleteReq [true] (fun _ => true) (fun _ => true) ⟨4, 1, false⟩
        ⟨⟨99, false, 0, false⟩ :: [⟨7, true, 7, true⟩], [⟨7, true, 7, true⟩], []⟩
        false).admission.nodes = [] ∧
      (handleMessageCompleteReq [true] (fun _ => true) (fun _ => true) ⟨4, 1, false⟩
        ⟨⟨99, false, 0, false⟩ :: [⟨7, true, 7, true⟩], [⟨7, true, 7, true⟩], []⟩
        false).admission.prepared = [(⟨99, false, 0, false⟩ : Worker).wid] ∧
      (handleMessageCompleteReq [true] (fun _ => true) (fun _ => true) ⟨4, 1, false⟩
        ⟨⟨99, false, 0, false⟩ :: [⟨7, true, 7, true⟩], [⟨7, true, 7, true⟩], []⟩
        false).pollIssued = false) :=
  C6_input_worker [(NodeTypes.video, 7), (NodeTypes.vfPreview, 8)] 99
    ⟨[⟨99, false, 0, false⟩, ⟨8, true, 8, true⟩, ⟨7, true, 7, true⟩],
      [⟨8, true, 8, true⟩, ⟨7, true, 7, true⟩], [8, 7]⟩ ⟨[], [], []⟩
    [true] (fun _ => true) (fun _ => true) ⟨4, 1, false⟩
    ⟨99, false, 0, false⟩ [⟨7, true, 7, true⟩] [⟨7, true, 7, true⟩] []
    (by decide) rfl (by decide)

/-- C7 counterexample: when more than one blob stream is supplied, the
mapper fails *before* clearing the two maps, so a mapping populated by an
earlier configuration survives — the claim's "in all failure cases the
node and listener mappings remain cleared" is false on the code. -/
theorem C7_unsupported_configs_counterexample :
    mapStreamWithDeviceNode [⟨0, 10, 10⟩, ⟨1, 10, 10⟩] []
      ⟨[(NodeTypes.video, ⟨9, 5, 5⟩)], []⟩ =
      (StatusT.badValue, ⟨[(NodeTypes.video, ⟨9, 5, 5⟩)], []⟩) ∧
    ([(NodeTypes.video, (⟨9, 5, 5⟩ : Camera3Stream))] : List (NodeTypes × Camera3Stream)) ≠
      [] := by
  decide

/-- C7 (amended): the mapper fails for every set with more than one blob
stream (`BAD_VALUE`, leaving the maps exactly as they were before the
call), fails with an error for every other combination outside {exactly 1
stream, exactly 2 streams, exactly one blob with at least two yuv} with
both maps cleared, and succeeds on exactly those three combinations.  The
mapper touches no hardware in any case (it is a pure map computation). -/
theorem C7_unsupported_configs (blobs yuvs : List Camera3Stream) (prior : MapResult) :
    (blobs.length > 1 →
      mapStreamWithDeviceNode blobs yuvs prior = (StatusT.badValue, prior)) ∧
    (blobs.length ≤ 1 →
      ¬(blobs.length + yuvs.length = 1 ∨ blobs.length + yuvs.length = 2 ∨
        (blobs.length = 1 ∧ 2 ≤ yuvs.length)) →
      mapStreamWithDeviceNode blobs yuvs prior = (StatusT.unknownError, ⟨[], []⟩)) ∧
    (blobs.length ≤ 1 →
      (blobs.length + yuvs.length = 1 ∨ blobs.length + yuvs.length = 2 ∨
        (blobs.length = 1 ∧ 2 ≤ yuvs.length)) →
      (mapStreamWithDeviceNode blobs yuvs prior).1 = StatusT.ok) := by
  refine ⟨?_, ?_, ?_⟩
  · intro h
    simp [mapStreamWithDeviceNode, h]
  · intro h1 h2
    simp only [mapStreamWithDeviceNode, List.length_append]
    rw [if_neg (by omega), if_neg (by omega), if_neg (by omega),
      if_neg (fun hc => h2 (Or.inr (Or.inr ⟨hc.2, hc.1⟩)))]
  · intro h1 h2
    simp only [mapStreamWithDeviceNode, List.length_append]
    rcases h2 with hc | hc | hc
    · rw [if_neg (by omega), if_pos hc]
    · rw [if_neg (by omega), if_neg (by omega), if_pos hc]
    · rw [if_neg (by omega), if_neg (by omega), if_neg (by omega),
        if_pos ⟨hc.2, hc.1⟩]

/-- Witness for C7 (amended) at a concrete input: zero streams fail with
the maps cleared. -/
theorem C7_unsupported_configs_witness :
    mapStreamWithDeviceNode [] [] ⟨[(NodeTypes.video, ⟨9, 5, 5⟩)], []⟩ =
      (StatusT.unknownError, ⟨[], []⟩) :=
  (C7_unsupported_configs [] [] ⟨[(NodeTypes.video, ⟨9, 5, 5⟩)], []⟩).2.1
    (by decide) (by decide)

/-- C8: a single stream (yuv or blob) is assigned to the "video" node with
no preview entry and no listeners; with two streams the larger-area stream
becomes "video" and the other "preview" (vf and pv alias the same preview
stream), an area tie giving "video" to the first stream, again with no
listeners. -/
theorem C8_small_configs (s0 s1 : Camera3Stream) (prior : MapResult) :
    mapStreamWithDeviceNode [] [s0] prior =
      (StatusT.ok, ⟨[(NodeTypes.video, s0)], []⟩) ∧
    mapStreamWithDeviceNode [s0] [] prior =
      (StatusT.ok, ⟨[(NodeTypes.video, s0)], []⟩) ∧
    (streamSize s0 ≥ streamSize s1 →
      mapStreamWithDeviceNode [] [s0, s1] prior =
        (StatusT.ok, ⟨[(NodeTypes.vfPreview, s1), (NodeTypes.pvPreview, s1),
          (NodeTypes.video, s0)], []⟩)) ∧
    (streamSize s0 < streamSize s1 →
      mapStreamWithDeviceNode [] [s0, s1] prior =
        (StatusT.ok, ⟨[(NodeTypes.vfPreview, s0), (NodeTypes.pvPreview, s0),
          (NodeTypes.video, s1)], []⟩)) ∧
    (streamSize s0 ≥ streamSize s1 →
      mapStreamWithDeviceNode [s0] [s1] prior =
        (StatusT.ok, ⟨[(NodeTypes.vfPreview, s1), (NodeTypes.pvPreview, s1),
          (NodeTypes.video, s0)], []⟩)) ∧
    (streamSize s0 < streamSize s1 →
      mapStreamWithDeviceNode [s0] [s1] prior =
        (StatusT.ok, ⟨[(NodeTypes.vfPreview, s0), (NodeTypes.pvPreview, s0),
          (NodeTypes.video, s1)], []⟩)) := by
  refine ⟨?_, ?_, ?_, ?_, ?_, ?_⟩
  · simp [mapStreamWithDeviceNode, getStr]
  · simp [mapStreamWithDeviceNode, getStr]
  · intro h
    simp [mapStreamWithDeviceNode, getStr, h]
  · intro h
    simp [mapStreamWithDeviceNode, getStr, Nat.not_le.mpr h]
  · intro h
    simp [mapStreamWithDeviceNode, getStr, h]
  · intro h
    simp [mapStreamWithDeviceNode, getStr, Nat.not_le.mpr h]

/-- Witness for C8 at a concrete input: the spec's two scenarios, a single
1920×1080 stream and the pair 1920×1080 / 640×480. -/
theorem C8_small_configs_witness :
    mapStreamWithDeviceNode [] [⟨1, 1920, 1080⟩] ⟨[], []⟩ =
      (StatusT.ok, ⟨[(NodeTypes.video, ⟨1, 1920, 1080⟩)], []⟩) ∧
    (streamSize ⟨1, 1920, 1080⟩ ≥ streamSize ⟨2, 640, 480⟩ ∧
      mapStreamWithDeviceNode [] [⟨1, 1920, 1080⟩, ⟨2, 640, 480⟩] ⟨[], []⟩ =
        (StatusT.ok, ⟨[(NodeTypes.vfPreview, ⟨2, 640, 480⟩),
          (NodeTypes.pvPreview, ⟨2, 640, 480⟩),
          (NodeTypes.video, ⟨1, 1920, 1080⟩)], []⟩)) :=
  ⟨(C8_small_configs ⟨1, 1920, 1080⟩ ⟨2, 640, 480⟩ ⟨[], []⟩).1,
   by decide,
   (C8_small_configs ⟨1, 1920, 1080⟩ ⟨2, 640, 480⟩ ⟨[], []⟩).2.2.1 (by decide)⟩

/-- C4 counterexample: streams blob 2000×2000 (video, ratio 1), yuv
1000×500 (preview, ratio 2), yuv 4000×1000 (listener, ratio 4).  The
listener's ratio is strictly closer to the preview's (|4−2| = 2 versus
|4−1| = 3, no 1e-6 tie), so the claimed rule assigns the preview node,
but the source assigns the *video* node because the preview stream's area
(500000) is smaller than the listener's (4000000) — the claim omits the
size guard of the non-tie branches. -/
theorem C4_listener_counterexample :
    mapStreamWithDeviceNode [⟨0, 2000, 2000⟩] [⟨1, 1000, 500⟩, ⟨2, 4000, 1000⟩] ⟨[], []⟩ =
      (StatusT.ok, ⟨[(NodeTypes.vfPreview, ⟨1, 1000, 500⟩),
        (NodeTypes.pvPreview, ⟨1, 1000, 500⟩),
        (NodeTypes.video, ⟨0, 2000, 2000⟩)],
        [(⟨2, 4000, 1000⟩, NodeTypes.video)]⟩) ∧
    listenerNodeClaimed ⟨0, 2000, 2000⟩ ⟨1, 1000, 500⟩ ⟨2, 4000, 1000⟩ =
      NodeTypes.vfPreview ∧
    NodeTypes.video ≠ NodeTypes.vfPreview := by
  refine ⟨?_, ?_, by decide⟩
  · have h3 : listenerNodeOfSource ⟨0, 2000, 2000⟩ ⟨1, 1000, 500⟩ ⟨2, 4000, 1000⟩ =
        NodeTypes.video := by
      norm_num [listenerNodeOfSource, qabs, streamSizeRatioQ, tieEps, streamSize]
    have hv : pickVideoIdx [⟨0, 2000, 2000⟩, ⟨1, 1000, 500⟩, ⟨2, 4000, 1000⟩] = 0 := by
      decide
    have hp : pickPreviewIdx [⟨0, 2000, 2000⟩, ⟨1, 1000, 500⟩, ⟨2, 4000, 1000⟩] 0 =
        some 1 := by decide
    have hl : listenerAssign [⟨0, 2000, 2000⟩, ⟨1, 1000, 500⟩, ⟨2, 4000, 1000⟩] 0 1 =
        [(2, NodeTypes.video)] := by
      simp [listenerAssign, getStr, (by decide : List.range 3 = [0, 1, 2]), h3]
    simp [mapStreamWithDeviceNode, hv, hp, hl, getStr]
  · norm_num [listenerNodeClaimed, qabs, streamSizeRatioQ, tieEps, streamSize]

theorem getStr_eq_get (l : List Camera3Stream) (i : Nat) (h : i < l.length) :
    getStr l i = l.get ⟨i, h⟩ := by
  simp [getStr, List.getD_eq_getElem?_getD, List.getElem?_eq_getElem h]

/-- C4 (amended): in the one-blob, at-least-two-yuv mapping case the
mapper succeeds and every listener stream is assigned to a node by the
amended rule: the closer-aspect-ratio node (absolute difference of
width/height ratios) wins only when that node's stream area is at least
the listener's, otherwise the other node is chosen; ratio ties within
1e-6 are broken by equal-area-to-video → video, equal-area-to-preview →
preview, otherwise the larger-area node.  No stream is ever assigned as a
listener to two different nodes, and every stream other than the video
and preview streams appears as a listener. -/
theorem C4_listener_assignment (blobs yuvs : List Camera3Stream) (prior : MapResult)
    (st : StatusT) (m : MapResult)
    (hb : blobs.length = 1) (hy : 2 ≤ yuvs.length)
    (hrun : mapStreamWithDeviceNode blobs yuvs prior = (st, m)) :
    st = StatusT.ok ∧
    ∃ videoS previewS,
      lookupNode m.nodeMapping NodeTypes.video = some videoS ∧
      lookupNode m.nodeMapping NodeTypes.vfPreview = some previewS ∧
      (∀ p ∈ m.listenerMapping, p.2 = listenerNodeAmended videoS previewS p.1) ∧
      (∀ s n₁ n₂, (s, n₁) ∈ m.listenerMapping → (s, n₂) ∈ m.listenerMapping → n₁ = n₂) ∧
      (∀ s ∈ blobs ++ yuvs, s ≠ videoS → s ≠ previewS →
        s ∈ m.listenerMapping.map Prod.fst) := by
  simp only [mapStreamWithDeviceNode, List.length_append] at hrun
  rw [if_neg (by omega), if_neg (by omega), if_neg (by omega), if_pos ⟨hy, hb⟩] at hrun
  rw [Prod.mk.injEq] at hrun
  obtain ⟨hst, hm⟩ := hrun
  subst hst
  subst hm
  have key : ∀ p ∈ (listenerAssign (blobs ++ yuvs) (pickVideoIdx (blobs ++ yuvs))
      ((pickPreviewIdx (blobs ++ yuvs) (pickVideoIdx (blobs ++ yuvs))).getD 1)).map
      (fun q => (getStr (blobs ++ yuvs) q.1, q.2)),
      p.2 = listenerNodeAmended (getStr (blobs ++ yuvs) (pickVideoIdx (blobs ++ yuvs)))
        (getStr (blobs ++ yuvs) ((pickPreviewIdx (blobs ++ yuvs)
          (pickVideoIdx (blobs ++ yuvs))).getD 1)) p.1 := by
    intro p hp
    rcases List.mem_map.mp hp with ⟨q, hq, hpq⟩
    rcases List.mem_filterMap.mp hq with ⟨i, hi, hsome⟩
    by_cases hvp : i = pickVideoIdx (blobs ++ yuvs) ∨
        i = (pickPreviewIdx (blobs ++ yuvs) (pickVideoIdx (blobs ++ yuvs))).getD 1
    · simp [hvp] at hsome
    · rw [if_neg hvp] at hsome
      rcases Option.some.injEq _ _ ▸ hsome with rfl
      subst hpq
      rfl
  refine ⟨rfl, getStr (blobs ++ yuvs) (pickVideoIdx (blobs ++ yuvs)),
    getStr (blobs ++ yuvs) ((pickPreviewIdx (blobs ++ yuvs)
      (pickVideoIdx (blobs ++ yuvs))).getD 1), rfl, rfl, key, ?_, ?_⟩
  · intro s n₁ n₂ h1 h2
    have e1 := key (s, n₁) h1
    have e2 := key (s, n₂) h2
    exact e1.trans e2.symm
  · intro s hs hnv hnp
    rcases List.mem_iff_get.mp hs with ⟨⟨i, hilt⟩, hget⟩
    have hgi : getStr (blobs ++ yuvs) i = s := by
      rw [getStr_eq_get _ _ hilt, hget]
    have hiv : i ≠ pickVideoIdx (blobs ++ yuvs) := by
      intro he
      apply hnv
      rw [← hgi, he]
    have hip : i ≠ (pickPreviewIdx (blobs ++ yuvs)
        (pickVideoIdx (blobs ++ yuvs))).getD 1 := by
      intro he
      apply hnp
      rw [← hgi, he]
    have hmem : (i, listenerNodeOfSource
        (getStr (blobs ++ yuvs) (pickVideoIdx (blobs ++ yuvs)))
        (getStr (blobs ++ yuvs) ((pickPreviewIdx (blobs ++ yuvs)
          (pickVideoIdx (blobs ++ yuvs))).getD 1))
        (getStr (blobs ++ yuvs) i)) ∈
        listenerAssign (blobs ++ yuvs) (pickVideoIdx (blobs ++ yuvs))
          ((pickPreviewIdx (blobs ++ yuvs) (pickVideoIdx (blobs ++ yuvs))).getD 1) := by
      apply List.mem_filterMap.mpr
      refine ⟨i, List.mem_range.mpr hilt, ?_⟩
      rw [if_neg (by tauto)]
    have h2 := List.mem_map_of_mem (fun q => (getStr (blobs ++ yuvs) q.1, q.2)) hmem
    have h3 := List.mem_map_of_mem Prod.fst h2
    simpa [hgi] using h3

/-- Witness for C4 (amended) at a concrete input: blob 4000×3000 and yuv
streams 1920×1080 and 640×480. -/
theorem C4_listener_assignment_witness :
    StatusT.ok = StatusT.ok ∧
    ∃ videoS previewS,
      lookupNode (⟨[(NodeTypes.vfPreview, ⟨1, 1920, 1080⟩),
          (NodeTypes.pvPreview, ⟨1, 1920, 1080⟩),
          (NodeTypes.video, ⟨0, 4000, 3000⟩)],
          [(⟨2, 640, 480⟩, NodeTypes.video)]⟩ : MapResult).nodeMapping
        NodeTypes.video = some videoS ∧
      lookupNode (⟨[(NodeTypes.vfPreview, ⟨1, 1920, 1080⟩),
          (NodeTypes.pvPreview, ⟨1, 1920, 1080⟩),
          (NodeTypes.video, ⟨0, 4000, 3000⟩)],
          [(⟨2, 640, 480⟩, NodeTypes.video)]⟩ : MapResult).nodeMapping
        NodeTypes.vfPreview = some previewS ∧
      (∀ p ∈ (⟨[(NodeTypes.vfPreview, ⟨1, 1920, 1080⟩),
          (NodeTypes.pvPreview, ⟨1, 1920, 1080⟩),
          (NodeTypes.video, ⟨0, 4000, 3000⟩)],
          [(⟨2, 640, 480⟩, NodeTypes.video)]⟩ : MapResult).listenerMapping,
        p.2 = listenerNodeAmended videoS previewS p.1) ∧
      (∀ s n₁ n₂,
        (s, n₁) ∈ (⟨[(NodeTypes.vfPreview, ⟨1, 1920, 1080⟩),
          (NodeTypes.pvPreview, ⟨1, 1920, 1080⟩),
          (NodeTypes.video, ⟨0, 4000, 3000⟩)],
          [(⟨2, 640, 480⟩, NodeTypes.video)]⟩ : MapResult).listenerMapping →
        (s, n₂) ∈ (⟨[(NodeTypes.vfPreview, ⟨1, 1920, 1080⟩),
          (NodeTypes.pvPreview, ⟨1, 1920, 1080⟩),
          (NodeTypes.video, ⟨0, 4000, 3000⟩)],
          [(⟨2, 640, 480⟩, NodeTypes.video)]⟩ : MapResult).listenerMapping → n₁ = n₂) ∧
      (∀ s ∈ [(⟨0, 4000, 3000⟩ : Camera3Stream)] ++
          [(⟨1, 1920, 1080⟩ : Camera3Stream), ⟨2, 640, 480⟩],
        s ≠ videoS → s ≠ previewS →
        s ∈ (⟨[(NodeTypes.vfPreview, ⟨1, 1920, 1080⟩),
          (NodeTypes.pvPreview, ⟨1, 1920, 1080⟩),
          (NodeTypes.video, ⟨0, 4000, 3000⟩)],
          [(⟨2, 640, 480⟩, NodeTypes.video)]⟩ : MapResult).listenerMapping.map Prod.fst) :=
  C4_listener_assignment [⟨0, 4000, 3000⟩] [⟨1, 1920, 1080⟩, ⟨2, 640, 480⟩] ⟨[], []⟩
    StatusT.ok
    ⟨[(NodeTypes.vfPreview, ⟨1, 1920, 1080⟩), (NodeTypes.pvPreview, ⟨1, 1920, 1080⟩),
      (NodeTypes.video, ⟨0, 4000, 3000⟩)], [(⟨2, 640, 480⟩, NodeTypes.video)]⟩
    rfl (by decide)
    (by
      have h3 : listenerNodeOfSource ⟨0, 4000, 3000⟩ ⟨1, 1920, 1080⟩ ⟨2, 640, 480⟩ =
          NodeTypes.video := by
        norm_num [listenerNodeOfSource, qabs, streamSizeRatioQ, tieEps, streamSize]
      have hv : pickVideoIdx [⟨0, 4000, 3000⟩, ⟨1, 1920, 1080⟩, ⟨2, 640, 480⟩] = 0 := by
        decide
      have hp : pickPreviewIdx [⟨0, 4000, 3000⟩, ⟨1, 1920, 1080⟩, ⟨2, 640, 480⟩] 0 =
          some 1 := by decide
      have hl : listenerAssign [⟨0, 4000, 3000⟩, ⟨1, 1920, 1080⟩, ⟨2, 640, 480⟩] 0 1 =
          [(2, NodeTypes.video)] := by
        simp [listenerAssign, getStr, (by decide : List.range 3 = [0, 1, 2]), h3]
      simp [mapStreamWithDeviceNode, hv, hp, hl, getStr])
